import Mathlib

/-!
# conveyor: the client build coordinator and the remote build queue

A shallow embedding of `client/conveyor/build.go` (`Service.Build`) and of the
remote queue consumer exercised by `queue_test.go`.

The remote service is an explicit state machine (`Service σ`): every method
takes the service state and returns its response with the next state.  The
coordinator threads a `World`: the service state, the payloads received so far
by the writer `w`, what was printed on standard error, and an event log
recording every service call with its response, every write `Build` itself
performs on `w`, and every timer wait, in program order.

The polling loop `for { ... }` has no bound in the source; `pollLoop` takes a
fuel argument counting the polls it may still perform, and reports `none`
while the loop is still running when the fuel is used up.
-/

namespace Conveyor

/-! ## Data model -/

/-- Modelled from the spec: the error values of the client.  The Go `error`
interface is observed through `Error()` (field `Message`) and through the
helper `notFound`, whose declaration is not part of the excerpt; `NotFound`
records the "not-found" kind of section 7. -/
structure Error where
  Message : String
  NotFound : Bool
  deriving DecidableEq

/-- Modelled from the spec: `notFound(err)` tells the distinguishable
"not-found" kind from every other failure. -/
def notFound (err : Error) : Bool := err.NotFound

/-- Go `errors.New(msg)`: a plain error, never of the not-found kind. -/
def errorsNew (msg : String) : Error := { Message := msg, NotFound := false }

/-- Go `fmt.Errorf("build %s failed", buildID)`. -/
def buildFailedError (buildID : String) : Error :=
  { Message := "build " ++ buildID ++ " failed", NotFound := false }

/-- Modelled from the spec: the `Artifact` record (its declaration is not part
of the excerpt); `Build` only passes it through. -/
structure Artifact where
  ID : String
  Image : String
  deriving DecidableEq

/-- Modelled from the spec: the `Build` record; `Build` reads `ID`, `State`
and `CompletedAt` (an optional timestamp, here seconds). -/
structure Build where
  ID : String
  State : String
  CompletedAt : Option Nat
  deriving DecidableEq

/-- Modelled from the spec: `BuildCreateOpts`; `Sha` is a `*string`. -/
structure BuildCreateOpts where
  Repository : String
  Sha : Option String
  Branch : Option String
  deriving DecidableEq

/-- Modelled from the spec: the response of a fallible service method.
Section 4.4 types each operation as a value or an error (not-found being a
kind of error): the Go pair `(value, err)` with `err == nil` is `ok value`,
and with `err != nil` it is `fail err` and carries no value. -/
inductive Resp (α : Type) where
  | ok (v : α)
  | fail (err : Error)
  deriving DecidableEq

/-- One observable step of a run of `Build`, in program order. -/
inductive Event where
  | ArtifactInfo (key : String) (r : Resp Artifact)
  | BuildInfo (key : String) (r : Resp Build)
  | BuildCreate (o : BuildCreateOpts) (r : Resp Build)
  | LogsStream (buildID : String) (chunks : List String) (err : Option Error)
  | Write (s : String)
  | After (seconds : Nat)
  deriving DecidableEq

/-- The remote service client.  The bodies of the four methods `Build` calls
are not among the sources, so they are parameters: transitions of the service
state `σ`, each returning its response and the next state.  `LogsStream`
returns the chunks it wrote to the writer it was handed, and its error. -/
structure Service (σ : Type) where
  ArtifactInfo : σ → String → Resp Artifact × σ
  BuildInfo : σ → String → Resp Build × σ
  BuildCreate : σ → BuildCreateOpts → Resp Build × σ
  LogsStream : σ → String → List String × Option Error × σ

/-- What a run of `Build` acts on: the state of the remote service, the
payloads the writer `w` has received (oldest first), the lines printed on
standard error, and the log of events. -/
structure World (σ : Type) where
  svc : σ
  w : List String
  stderr : List String
  log : List Event

/-- The world at the call of `Build`: the service in state `svc`, a writer
that has received `w` so far, nothing observed yet. -/
def World.start {σ : Type} (svc : σ) (w : List String) : World σ :=
  { svc := svc, w := w, stderr := [], log := [] }

/-! ## Effects -/

section Effects
variable {σ : Type}

/-- The call `s.ArtifactInfo(key)`. -/
def callArtifactInfo (s : Service σ) (key : String) (st : World σ) :
    Resp Artifact × World σ :=
  let r := s.ArtifactInfo st.svc key
  (r.1, { st with svc := r.2, log := st.log ++ [Event.ArtifactInfo key r.1] })

/-- The call `s.BuildInfo(key)`. -/
def callBuildInfo (s : Service σ) (key : String) (st : World σ) :
    Resp Build × World σ :=
  let r := s.BuildInfo st.svc key
  (r.1, { st with svc := r.2, log := st.log ++ [Event.BuildInfo key r.1] })

/-- The call `s.BuildCreate(o)`. -/
def callBuildCreate (s : Service σ) (o : BuildCreateOpts) (st : World σ) :
    Resp Build × World σ :=
  let r := s.BuildCreate st.svc o
  (r.1, { st with svc := r.2, log := st.log ++ [Event.BuildCreate o r.1] })

/-- The call `s.LogsStream(w, buildID)`: the chunks go to `w`. -/
def callLogsStream (s : Service σ) (buildID : String) (st : World σ) :
    Option Error × World σ :=
  let r := s.LogsStream st.svc buildID
  (r.2.1, { st with svc := r.2.2, w := st.w ++ r.1,
                    log := st.log ++ [Event.LogsStream buildID r.1 r.2.1] })

/-- Go `io.WriteString(w, str)`; its result is ignored by `Build`. -/
def ioWriteString (str : String) (st : World σ) : World σ :=
  { st with w := st.w ++ [str], log := st.log ++ [Event.Write str] }

/-- Go `fmt.Fprintf(os.Stderr, "error streaming logs: %v\n", err)`. -/
def reportStreamError (err : Error) (st : World σ) : World σ :=
  { st with stderr := st.stderr ++ ["error streaming logs: " ++ err.Message ++ "\n"] }

/-- Go `<-time.After(d)`, `d` in seconds. -/
def timeAfter (seconds : Nat) (st : World σ) : World σ :=
  { st with log := st.log ++ [Event.After seconds] }

end Effects

/-! ## `Service.Build` -/

section Coordinator
variable {σ : Type}

/-- How one run of the polling loop ends: a `return` from inside the loop, or
the `break`. -/
inductive LoopExit where
  | ret (a : Option Artifact) (err : Option Error)
  | brk
  deriving DecidableEq

/-- Lines 30-43 of `build.go`: look the build up under the canonical key and
create it when there is none. -/
def findOrCreate (s : Service σ) (repoSha : String) (o : BuildCreateOpts)
    (st : World σ) : Resp Build × World σ :=
  match callBuildInfo s repoSha st with
  | (Resp.ok b, st1) => (Resp.ok b, st1)
  | (Resp.fail err, st1) =>
    if !notFound err then (Resp.fail err, st1)
    else
      match callBuildCreate s o st1 with
      | (Resp.fail err2, st2) => (Resp.fail err2, st2)
      | (Resp.ok b, st2) => (Resp.ok b, ioWriteString ("Build: " ++ b.ID ++ "\n") st2)

/-- Lines 51-68 of `build.go`: the polling loop, `fuel` polls at most. -/
def pollLoop (s : Service σ) (buildID : String) :
    Nat → World σ → Option LoopExit × World σ
  | 0, st => (none, st)
  | fuel + 1, st =>
    match callBuildInfo s buildID (timeAfter 5 st) with
    | (Resp.fail err, st1) => (some (LoopExit.ret none (some err)), st1)
    | (Resp.ok b, st1) =>
      if b.State = "failed" then
        (some (LoopExit.ret none (some (buildFailedError buildID))), st1)
      else if b.CompletedAt.isSome then (some LoopExit.brk, st1)
      else pollLoop s buildID fuel st1

/-- The Go pair `(*Artifact, error)` carried by a response. -/
def Resp.toPair : Resp Artifact → Option Artifact × Option Error
  | Resp.ok a => (some a, none)
  | Resp.fail err => (none, some err)

/-- What follows the loop: a `return` inside the loop returns from `Build`;
after the `break`, line 70 returns `s.ArtifactInfo(repoSha)` as it comes.
With no fuel left the loop is still running and nothing is returned. -/
def afterLoop (s : Service σ) (repoSha : String) :
    Option LoopExit × World σ → Option (Option Artifact × Option Error) × World σ
  | (none, st) => (none, st)
  | (some (LoopExit.ret a err), st) => (some (a, err), st)
  | (some LoopExit.brk, st) =>
    let r := callArtifactInfo s repoSha st
    (some r.1.toPair, r.2)

/-- Lines 45-70 of `build.go`: stream the logs, poll, fetch the artifact. -/
def streamAndWait (s : Service σ) (fuel : Nat) (repoSha buildID : String)
    (st : World σ) : Option (Option Artifact × Option Error) × World σ :=
  let st1 :=
    match callLogsStream s buildID st with
    | (some err, st1) => reportStreamError err st1
    | (none, st1) => st1
  afterLoop s repoSha (pollLoop s buildID fuel st1)

/-- The method `Service.Build(w, o)`.  The result is `none` while the polling
loop is still running after `fuel` polls, and otherwise the returned pair
`(*Artifact, error)`. -/
def Service.Build (s : Service σ) (fuel : Nat) (o : BuildCreateOpts) (st : World σ) :
    Option (Option Artifact × Option Error) × World σ :=
  match o.Sha with
  | none => (some (none, some (errorsNew "cannot build without sha")), st)
  | some sha =>
    let repoSha := o.Repository ++ "@" ++ sha
    match callArtifactInfo s repoSha st with
    | (Resp.ok a, st1) => (some (some a, none), st1)
    | (Resp.fail err, st1) =>
      if !notFound err then (some (none, some err), st1)
      else
        match findOrCreate s repoSha o st1 with
        | (Resp.fail err2, st2) => (some (none, some err2), st2)
        | (Resp.ok b, st2) => streamAndWait s fuel repoSha b.ID st2

end Coordinator

/-! ## Reading the event log -/

/-- The events of a run that follow its `LogsStream` call: the polls and the
final fetch. -/
def pollEvents : List Event → List Event
  | [] => []
  | Event.LogsStream _ _ _ :: rest => rest
  | _ :: rest => pollEvents rest

/-- The events of a run up to its `LogsStream` call, that call excluded. -/
def setupEvents : List Event → List Event
  | [] => []
  | Event.LogsStream _ _ _ :: _ => []
  | e :: rest => e :: setupEvents rest

/-- A build that is neither failed nor completed: the loop polls again. -/
def Build.pending (b : Build) : Prop := b.State ≠ "failed" ∧ b.CompletedAt = none

/-- A build on which the loop breaks: completed and not failed. -/
def Build.done (b : Build) : Prop := b.State ≠ "failed" ∧ b.CompletedAt.isSome = true

/-- A `LogsStream` event without its error. -/
def Event.eraseStreamError : Event → Event
  | Event.LogsStream buildID chunks _ => Event.LogsStream buildID chunks none
  | e => e

/-- Two worlds that agree on all but standard error and the errors recorded
in `LogsStream` events. -/
def World.sim {σ : Type} (a b : World σ) : Prop :=
  a.svc = b.svc ∧ a.w = b.w ∧
    a.log.map Event.eraseStreamError = b.log.map Event.eraseStreamError

/-- The shape of what `Build` does after `LogsStream`, for build `buildID`
under key `repoSha` with `fuel` polls: the events and the result. -/
inductive WaitTrace (repoSha buildID : String) :
    Nat → List Event → Option (Option Artifact × Option Error) → Prop where
  | exhausted : WaitTrace repoSha buildID 0 [] none
  | callFailed (n : Nat) (err : Error) :
      WaitTrace repoSha buildID (n + 1)
        [Event.After 5, Event.BuildInfo buildID (Resp.fail err)] (some (none, some err))
  | buildFailed (n : Nat) (b : Build) (h : b.State = "failed") :
      WaitTrace repoSha buildID (n + 1)
        [Event.After 5, Event.BuildInfo buildID (Resp.ok b)]
        (some (none, some (buildFailedError buildID)))
  | completed (n : Nat) (b : Build) (r : Resp Artifact) (h : b.done) :
      WaitTrace repoSha buildID (n + 1)
        [Event.After 5, Event.BuildInfo buildID (Resp.ok b), Event.ArtifactInfo repoSha r]
        (some r.toPair)
  | again (n : Nat) (b : Build) (evs : List Event)
      (res : Option (Option Artifact × Option Error)) (h : b.pending)
      (t : WaitTrace repoSha buildID n evs res) :
      WaitTrace repoSha buildID (n + 1)
        (Event.After 5 :: Event.BuildInfo buildID (Resp.ok b) :: evs) res

/-- The shapes of a run of `Build` with `Sha` present, key `repoSha`: the
events, what `w` receives, and the result. -/
inductive BuildTrace (o : BuildCreateOpts) (repoSha : String) (fuel : Nat) :
    List Event → List String → Option (Option Artifact × Option Error) → Prop where
  | cached (a : Artifact) :
      BuildTrace o repoSha fuel [Event.ArtifactInfo repoSha (Resp.ok a)] []
        (some (some a, none))
  | artifactError (err : Error) (h : notFound err = false) :
      BuildTrace o repoSha fuel [Event.ArtifactInfo repoSha (Resp.fail err)] []
        (some (none, some err))
  | lookupError (err err2 : Error) (h : notFound err = true) (h2 : notFound err2 = false) :
      BuildTrace o repoSha fuel
        [Event.ArtifactInfo repoSha (Resp.fail err), Event.BuildInfo repoSha (Resp.fail err2)]
        [] (some (none, some err2))
  | createError (err err2 err3 : Error) (h : notFound err = true)
      (h2 : notFound err2 = true) :
      BuildTrace o repoSha fuel
        [Event.ArtifactInfo repoSha (Resp.fail err), Event.BuildInfo repoSha (Resp.fail err2),
          Event.BuildCreate o (Resp.fail err3)]
        [] (some (none, some err3))
  | attached (err : Error) (b : Build) (chunks : List String) (lerr : Option Error)
      (evs : List Event) (res : Option (Option Artifact × Option Error))
      (h : notFound err = true) (t : WaitTrace repoSha b.ID fuel evs res) :
      BuildTrace o repoSha fuel
        (Event.ArtifactInfo repoSha (Resp.fail err) :: Event.BuildInfo repoSha (Resp.ok b) ::
          Event.LogsStream b.ID chunks lerr :: evs)
        chunks res
  | created (err err2 : Error) (b : Build) (chunks : List String) (lerr : Option Error)
      (evs : List Event) (res : Option (Option Artifact × Option Error))
      (h : notFound err = true) (h2 : notFound err2 = true)
      (t : WaitTrace repoSha b.ID fuel evs res) :
      BuildTrace o repoSha fuel
        (Event.ArtifactInfo repoSha (Resp.fail err) :: Event.BuildInfo repoSha (Resp.fail err2) ::
          Event.BuildCreate o (Resp.ok b) :: Event.Write ("Build: " ++ b.ID ++ "\n") ::
          Event.LogsStream b.ID chunks lerr :: evs)
        (("Build: " ++ b.ID ++ "\n") :: chunks) res

/-! ## The remote queue

Of the queue only `queue_test.go` is at hand, not `queue.go`; the consumer is
modelled from sections 3, 4.1, 4.3 and 6 of the specification. -/

/-- Modelled from the spec: `builder.BuildOptions`, the request payload of
section 3 (its declaration is not part of the excerpt). -/
structure BuildOptions where
  ID : String
  Repository : String
  Sha : String
  Branch : String
  NoCache : Bool
  deriving DecidableEq

/-- Modelled from the spec: the cancellation context of a delivery; the
consumer attaches a fresh background context. -/
inductive Context where
  | background
  deriving DecidableEq

/-- Modelled from the spec: `BuildContext`, the unit flowing through a queue. -/
structure BuildContext where
  Ctx : Context
  BuildOptions : BuildOptions
  deriving DecidableEq

/-- Modelled from the spec: a received message (`sqs.Message`): its receipt
handle and its body. -/
structure Message where
  ReceiptHandle : String
  Body : String
  deriving DecidableEq

/-- Modelled from the spec: `sqs.DeleteMessageBatchRequestEntry`. -/
structure DeleteMessageBatchRequestEntry where
  Id : String
  ReceiptHandle : String
  deriving DecidableEq

/-- Modelled from the spec: `sqs.DeleteMessageBatchInput`. -/
structure DeleteMessageBatchInput where
  Entries : List DeleteMessageBatchRequestEntry
  QueueUrl : String
  deriving DecidableEq

/-- Modelled from the spec: the outcomes of a receive: a batch, a transport
error, or a panic with its value. -/
inductive Received where
  | messages (ms : List Message)
  | failed (err : Error)
  | panicked (value : String)
  deriving DecidableEq

/-- Modelled from the spec: the message-queue service (the `sqsClient`
interface mocked in `queue_test.go`), as transitions of its state `τ`. -/
structure SQSClient (τ : Type) where
  ReceiveMessage : τ → String → Received × τ
  DeleteMessageBatch : τ → DeleteMessageBatchInput → Option Error × τ

/-- Modelled from the spec: `SQSBuildQueue` (section 4.3): the service handle,
the queue URL, whether an error handler is configured, and the JSON decoding
of a message body into `BuildOptions`. -/
structure SQSBuildQueue (τ : Type) where
  sqs : SQSClient τ
  QueueURL : String
  hasErrHandler : Bool
  decode : String → Resp BuildOptions

/-- One observable step of the consumer, in program order: a receive on a
queue URL, a delivery to the sink, a batch-delete call, a call of the error
handler. -/
inductive QueueEvent where
  | ReceiveMessage (queueUrl : String)
  | Deliver (c : BuildContext)
  | DeleteMessageBatch (input : DeleteMessageBatchInput)
  | Handle (err : Error)
  deriving DecidableEq

/-- What the consumer acts on: the service state and the event log. -/
structure QueueWorld (τ : Type) where
  remote : τ
  log : List QueueEvent

/-- Modelled from the spec: the optional error handler; without a handler the
error is swallowed. -/
def SQSBuildQueue.handle {τ : Type} (q : SQSBuildQueue τ) (err : Error)
    (st : QueueWorld τ) : QueueWorld τ :=
  if q.hasErrHandler then { st with log := st.log ++ [QueueEvent.Handle err] } else st

/-- Modelled from the spec: step 2 of an iteration, from batch position `i`:
decode each body, deliver a `BuildContext` with a background context to the
sink, and pair the position with the receipt handle.  A body that does not
decode ends the batch with its error. -/
def SQSBuildQueue.deliver {τ : Type} (q : SQSBuildQueue τ) :
    Nat → List Message → List DeleteMessageBatchRequestEntry → QueueWorld τ →
      Resp (List DeleteMessageBatchRequestEntry) × QueueWorld τ
  | _, [], entries, st => (Resp.ok entries, st)
  | i, m :: rest, entries, st =>
    match q.decode m.Body with
    | Resp.fail err => (Resp.fail err, st)
    | Resp.ok options =>
      SQSBuildQueue.deliver q (i + 1) rest
        (entries ++ [{ Id := toString i, ReceiptHandle := m.ReceiptHandle }])
        { st with log := st.log ++
            [QueueEvent.Deliver { Ctx := Context.background, BuildOptions := options }] }

/-- Modelled from the spec: one iteration of the consumer loop (section 4.3,
steps 1 to 3, under the panic barrier).  The flag tells whether the loop goes
on: a transport or decoding error goes to the handler and the loop continues;
a panic goes to the handler as "panic: <value>" and ends the loop; after a
batch is delivered, one batch-delete is issued for the queue URL. -/
def SQSBuildQueue.receiveMessage {τ : Type} (q : SQSBuildQueue τ) (st : QueueWorld τ) :
    Bool × QueueWorld τ :=
  let r := q.sqs.ReceiveMessage st.remote q.QueueURL
  let st0 : QueueWorld τ :=
    { remote := r.2, log := st.log ++ [QueueEvent.ReceiveMessage q.QueueURL] }
  match r.1 with
  | Received.panicked value => (false, q.handle (errorsNew ("panic: " ++ value)) st0)
  | Received.failed err => (true, q.handle err st0)
  | Received.messages ms =>
    match q.deliver 0 ms [] st0 with
    | (Resp.fail err, st1) => (true, q.handle err st1)
    | (Resp.ok entries, st1) =>
      let input : DeleteMessageBatchInput := { Entries := entries, QueueUrl := q.QueueURL }
      let d := q.sqs.DeleteMessageBatch st1.remote input
      let st2 : QueueWorld τ :=
        { remote := d.2, log := st1.log ++ [QueueEvent.DeleteMessageBatch input] }
      match d.1 with
      | some err => (true, q.handle err st2)
      | none => (true, st2)

/-- Modelled from the spec: `Subscribe`, the consumer loop, `fuel` iterations
at most. -/
def SQSBuildQueue.Subscribe {τ : Type} (q : SQSBuildQueue τ) :
    Nat → QueueWorld τ → QueueWorld τ
  | 0, st => st
  | fuel + 1, st =>
    match q.receiveMessage st with
    | (true, st1) => SQSBuildQueue.Subscribe q fuel st1
    | (false, st1) => st1

/-- The entries of the batch-delete for a batch, from position `i`: the
decimal position with the receipt handle. -/
def batchEntries : Nat → List Message → List DeleteMessageBatchRequestEntry
  | _, [] => []
  | i, m :: rest => { Id := toString i, ReceiptHandle := m.ReceiptHandle } ::
      batchEntries (i + 1) rest

/-- The scenario of `TestSQSBuildQueue_Subscribe`: one receive returns two
messages, with receipt handles "a" and "b". -/
def testBody1 : String :=
  "\x7b\"Repository\":\"remind101/acme-inc-1\",\"Sha\":\"abcd\",\"Branch\":\"master\",\"NoCache\":false\x7d"

def testBody2 : String :=
  "\x7b\"Repository\":\"remind101/acme-inc-2\",\"Sha\":\"abcd\",\"Branch\":\"master\",\"NoCache\":false\x7d"

def testOptions1 : BuildOptions :=
  { ID := "", Repository := "remind101/acme-inc-1", Sha := "abcd", Branch := "master",
    NoCache := false }

def testOptions2 : BuildOptions :=
  { ID := "", Repository := "remind101/acme-inc-2", Sha := "abcd", Branch := "master",
    NoCache := false }

def testMessages : List Message :=
  [{ ReceiptHandle := "a", Body := testBody1 }, { ReceiptHandle := "b", Body := testBody2 }]

/-- The mocked client of the test: every receive returns the two messages,
every batch-delete succeeds; the state counts the calls. -/
def testClient : SQSClient Nat where
  ReceiveMessage := fun n _ => (Received.messages testMessages, n + 1)
  DeleteMessageBatch := fun n _ => (none, n + 1)

/-- The mocked client of `TestSQSBuildQueue_Subscribe_Panic`: the receive
panics with the value "boom". -/
def panicClient : SQSClient Nat where
  ReceiveMessage := fun n _ => (Received.panicked "boom", n + 1)
  DeleteMessageBatch := fun n _ => (none, n + 1)

/-- The queue of `TestSQSBuildQueue_Subscribe_Panic`, with an error handler. -/
def panicQueue : SQSBuildQueue Nat where
  sqs := panicClient
  QueueURL := ""
  hasErrHandler := true
  decode := fun _ => Resp.fail (errorsNew "invalid character")

/-- The queue of the test: empty queue URL, no handler; the decoder knows the
two bodies of the test. -/
def testQueue : SQSBuildQueue Nat where
  sqs := testClient
  QueueURL := ""
  hasErrHandler := false
  decode := fun body =>
    if body = testBody1 then Resp.ok testOptions1
    else if body = testBody2 then Resp.ok testOptions2
    else Resp.fail (errorsNew "invalid character")

/-! ## Scenarios

A scripted service, for the end-to-end scenarios of the specification. -/

/-- The answers of a scripted service. -/
structure Script where
  artifactFirst : Resp Artifact
  lookup : Resp Build
  create : Resp Build
  logs : List String
  logsError : Option Error
  polls : List (Resp Build)
  idle : Resp Build
  artifactFinal : Resp Artifact

/-- The scripted service; its state counts the `ArtifactInfo` and the
`BuildInfo` calls answered so far.  The first `BuildInfo` call gets `lookup`,
the following ones the entries of `polls` in turn and then `idle` for ever. -/
def Script.service (sc : Script) : Service (Nat × Nat) where
  ArtifactInfo := fun n _ =>
    (if n.1 = 0 then sc.artifactFirst else sc.artifactFinal, (n.1 + 1, n.2))
  BuildInfo := fun n _ =>
    (match n.2 with
      | 0 => sc.lookup
      | k + 1 => (sc.polls.get? k).getD sc.idle,
     (n.1, n.2 + 1))
  BuildCreate := fun n _ => (sc.create, n)
  LogsStream := fun n _ => (sc.logs, sc.logsError, n)

def errNotFound : Error := { Message := "not found", NotFound := true }

def errTransport : Error := { Message := "connection reset", NotFound := false }

def optsAcme : BuildCreateOpts := { Repository := "r/a", Sha := some "abcd", Branch := none }

def artifactX : Artifact := { ID := "X", Image := "r/a:abcd" }

def artifactY : Artifact := { ID := "Y", Image := "r/a:abcd" }

def buildPending (id : String) : Build := { ID := id, State := "building", CompletedAt := none }

def buildSucceeded (id : String) : Build :=
  { ID := id, State := "succeeded", CompletedAt := some 1700000000 }

def buildFailed (id : String) (completedAt : Option Nat) : Build :=
  { ID := id, State := "failed", CompletedAt := completedAt }

/-- Scenario 1: the artifact is cached. -/
def scenarioCached : Script :=
  { artifactFirst := Resp.ok artifactX, lookup := Resp.fail errNotFound,
    create := Resp.fail errTransport, logs := [], logsError := none, polls := [],
    idle := Resp.fail errTransport, artifactFinal := Resp.ok artifactX }

/-- Scenario 2: attach to the running build `b1`. -/
def scenarioAttach : Script :=
  { artifactFirst := Resp.fail errNotFound, lookup := Resp.ok (buildPending "b1"),
    create := Resp.fail errTransport, logs := ["log..."], logsError := none,
    polls := [Resp.ok (buildSucceeded "b1")], idle := Resp.fail errTransport,
    artifactFinal := Resp.ok artifactX }

/-- Scenario 3: no build yet; `b2` is created, polled twice, and succeeds. -/
def scenarioCreate : Script :=
  { artifactFirst := Resp.fail errNotFound, lookup := Resp.fail errNotFound,
    create := Resp.ok (buildPending "b2"), logs := ["log..."], logsError := none,
    polls := [Resp.ok (buildPending "b2"), Resp.ok (buildSucceeded "b2")],
    idle := Resp.fail errTransport, artifactFinal := Resp.ok artifactY }

/-- Scenario 4: as scenario 3, but the second poll reports `failed`. -/
def scenarioFailure : Script :=
  { scenarioCreate with
    polls := [Resp.ok (buildPending "b2"), Resp.ok (buildFailed "b2" none)] }

/-- A build that never leaves `building`: attach to `b1`, every poll answers
"building" with no `CompletedAt`. -/
def scenarioStuck : Script :=
  { artifactFirst := Resp.fail errNotFound, lookup := Resp.ok (buildPending "b1"),
    create := Resp.fail errTransport, logs := [], logsError := none,
    polls := [], idle := Resp.ok (buildPending "b1"),
    artifactFinal := Resp.ok artifactX }

/-- Attach to `b1`, whose first poll reports `failed` with `CompletedAt` set. -/
def scenarioAttachFailure : Script :=
  { scenarioAttach with polls := [Resp.ok (buildFailed "b1" (some 1700000000))] }

/-- Scenario 3 with a failing log stream. -/
def scenarioCreateStreamError : Script :=
  { scenarioCreate with logsError := some errTransport }

/-- The first `ArtifactInfo` fails with a transport error. -/
def scenarioArtifactError : Script :=
  { scenarioCreate with artifactFirst := Resp.fail errTransport }

/-- The lookup `BuildInfo(canon)` fails with a transport error. -/
def scenarioLookupError : Script :=
  { scenarioCreate with lookup := Resp.fail errTransport }

/-- The creation fails, here with an error of the not-found kind. -/
def scenarioCreateError : Script :=
  { scenarioCreate with create := Resp.fail errNotFound }

/-- The second poll fails, here with an error of the not-found kind. -/
def scenarioPollError : Script :=
  { scenarioCreate with polls := [Resp.ok (buildPending "b2"), Resp.fail errNotFound] }

/-- Options without a `Sha`. -/
def optsNoSha : BuildCreateOpts := { Repository := "r/a", Sha := none, Branch := none }

/-- Options whose `Sha` is present and empty. -/
def optsEmptySha : BuildCreateOpts := { Repository := "r/a", Sha := some "", Branch := none }

/-! ## Lemmas: the polling loop -/

section Proofs
variable {σ : Type}

/-- The world after one more poll of `buildID`. -/
theorem polled_world (s : Service σ) (buildID : String) (st : World σ) :
    (callBuildInfo s buildID (timeAfter 5 st)).2 =
      { st with svc := (s.BuildInfo st.svc buildID).2,
                log := st.log ++ [Event.After 5,
                  Event.BuildInfo buildID (s.BuildInfo st.svc buildID).1] } := by
  simp [callBuildInfo, timeAfter]

theorem pollLoop_succ (s : Service σ) (buildID : String) (n : Nat) (st : World σ) :
    pollLoop s buildID (n + 1) st =
      match (s.BuildInfo st.svc buildID).1 with
      | Resp.fail err =>
        (some (LoopExit.ret none (some err)), (callBuildInfo s buildID (timeAfter 5 st)).2)
      | Resp.ok b =>
        if b.State = "failed" then
          (some (LoopExit.ret none (some (buildFailedError buildID))),
            (callBuildInfo s buildID (timeAfter 5 st)).2)
        else if b.CompletedAt.isSome then
          (some LoopExit.brk, (callBuildInfo s buildID (timeAfter 5 st)).2)
        else pollLoop s buildID n (callBuildInfo s buildID (timeAfter 5 st)).2 := by
  cases hr : (s.BuildInfo st.svc buildID).1 <;>
    simp [pollLoop, callBuildInfo, timeAfter, hr]

theorem afterLoop_pollLoop_trace (s : Service σ) (repoSha buildID : String) :
    ∀ (fuel : Nat) (st : World σ),
      ∃ evs, (afterLoop s repoSha (pollLoop s buildID fuel st)).2.log = st.log ++ evs ∧
        (afterLoop s repoSha (pollLoop s buildID fuel st)).2.w = st.w ∧
        (afterLoop s repoSha (pollLoop s buildID fuel st)).2.stderr = st.stderr ∧
        WaitTrace repoSha buildID fuel evs
          (afterLoop s repoSha (pollLoop s buildID fuel st)).1 := by
  intro fuel
  induction fuel with
  | zero =>
    intro st
    exact ⟨[], by simp [pollLoop, afterLoop], rfl, rfl, WaitTrace.exhausted⟩
  | succ n ih =>
    intro st
    rw [pollLoop_succ, polled_world]
    cases hr : (s.BuildInfo st.svc buildID).1 with
    | fail err =>
      exact ⟨[Event.After 5, Event.BuildInfo buildID (Resp.fail err)],
        by simp [afterLoop], by simp [afterLoop], by simp [afterLoop],
        by simpa [afterLoop] using WaitTrace.callFailed n err⟩
    | ok b =>
      by_cases hf : b.State = "failed"
      · exact ⟨[Event.After 5, Event.BuildInfo buildID (Resp.ok b)],
          by simp [afterLoop, hf], by simp [afterLoop, hf], by simp [afterLoop, hf],
          by simpa [afterLoop, hf] using WaitTrace.buildFailed n b hf⟩
      · by_cases hc : b.CompletedAt.isSome = true
        · exact ⟨[Event.After 5, Event.BuildInfo buildID (Resp.ok b),
              Event.ArtifactInfo repoSha
                (s.ArtifactInfo (s.BuildInfo st.svc buildID).2 repoSha).1],
            by simp [afterLoop, hf, hc, callArtifactInfo],
            by simp [afterLoop, hf, hc, callArtifactInfo],
            by simp [afterLoop, hf, hc, callArtifactInfo],
            by simpa [afterLoop, hf, hc, callArtifactInfo] using
              WaitTrace.completed n b _ ⟨hf, hc⟩⟩
        · have hc2 : b.CompletedAt = none := by
            cases hb : b.CompletedAt <;> simp_all
          obtain ⟨evs, h1, h2, h3, h4⟩ := ih
            { st with svc := (s.BuildInfo st.svc buildID).2,
                      log := st.log ++ [Event.After 5,
                        Event.BuildInfo buildID (Resp.ok b)] }
          refine ⟨Event.After 5 :: Event.BuildInfo buildID (Resp.ok b) :: evs, ?_, ?_, ?_, ?_⟩
          · simpa [hf, hc] using h1
          · simpa [hf, hc] using h2
          · simpa [hf, hc] using h3
          · simpa [hf, hc] using WaitTrace.again n b evs _ ⟨hf, hc2⟩ h4

theorem streamAndWait_trace (s : Service σ) (fuel : Nat) (repoSha buildID : String)
    (st : World σ) :
    ∃ evs, (streamAndWait s fuel repoSha buildID st).2.log =
        st.log ++ Event.LogsStream buildID (s.LogsStream st.svc buildID).1
          (s.LogsStream st.svc buildID).2.1 :: evs ∧
      (streamAndWait s fuel repoSha buildID st).2.w =
        st.w ++ (s.LogsStream st.svc buildID).1 ∧
      WaitTrace repoSha buildID fuel evs (streamAndWait s fuel repoSha buildID st).1 := by
  unfold streamAndWait
  cases hl : (s.LogsStream st.svc buildID).2.1 with
  | none =>
    obtain ⟨evs, h1, h2, _, h4⟩ := afterLoop_pollLoop_trace s repoSha buildID fuel
      (callLogsStream s buildID st).2
    refine ⟨evs, ?_, ?_, ?_⟩
    · simpa [callLogsStream, hl] using h1
    · simpa [callLogsStream, hl] using h2
    · simpa [callLogsStream, hl] using h4
  | some err =>
    obtain ⟨evs, h1, h2, _, h4⟩ := afterLoop_pollLoop_trace s repoSha buildID fuel
      (reportStreamError err (callLogsStream s buildID st).2)
    refine ⟨evs, ?_, ?_, ?_⟩
    · simpa [callLogsStream, hl, reportStreamError] using h1
    · simpa [callLogsStream, hl, reportStreamError] using h2
    · simpa [callLogsStream, hl, reportStreamError] using h4

theorem Build_trace (s : Service σ) (fuel : Nat) (o : BuildCreateOpts) (st : World σ)
    (sha : String) (hsha : o.Sha = some sha) :
    ∃ evs ws, (s.Build fuel o st).2.log = st.log ++ evs ∧
      (s.Build fuel o st).2.w = st.w ++ ws ∧
      evs.head? = some (Event.ArtifactInfo (o.Repository ++ "@" ++ sha)
        (s.ArtifactInfo st.svc (o.Repository ++ "@" ++ sha)).1) ∧
      BuildTrace o (o.Repository ++ "@" ++ sha) fuel evs ws (s.Build fuel o st).1 := by
  unfold Service.Build
  rw [hsha]
  simp only
  generalize o.Repository ++ "@" ++ sha = canon
  cases h1 : (s.ArtifactInfo st.svc canon).1 with
  | ok a =>
    exact ⟨[Event.ArtifactInfo canon (Resp.ok a)], [], by simp [callArtifactInfo, h1],
      by simp [callArtifactInfo, h1], by simp, by
        simpa [callArtifactInfo, h1] using BuildTrace.cached a⟩
  | fail err =>
    cases hn : notFound err with
    | false =>
      exact ⟨[Event.ArtifactInfo canon (Resp.fail err)], [],
        by simp [callArtifactInfo, h1, hn],
        by simp [callArtifactInfo, h1, hn], by simp, by
          simpa [callArtifactInfo, h1, hn] using BuildTrace.artifactError err hn⟩
    | true =>
      cases h2 : (s.BuildInfo (s.ArtifactInfo st.svc canon).2 canon).1 with
      | ok b =>
        obtain ⟨evs, e1, e2, e3⟩ := streamAndWait_trace s fuel canon b.ID
          (callBuildInfo s canon (callArtifactInfo s canon st).2).2
        refine ⟨Event.ArtifactInfo canon (Resp.fail err) ::
          Event.BuildInfo canon (Resp.ok b) ::
          Event.LogsStream b.ID
            (s.LogsStream (s.BuildInfo (s.ArtifactInfo st.svc canon).2 canon).2 b.ID).1
            (s.LogsStream (s.BuildInfo (s.ArtifactInfo st.svc canon).2 canon).2 b.ID).2.1 :: evs,
          (s.LogsStream (s.BuildInfo (s.ArtifactInfo st.svc canon).2 canon).2 b.ID).1,
          ?_, ?_, by simp, ?_⟩
        · simpa [callArtifactInfo, h1, hn, findOrCreate, callBuildInfo, h2] using e1
        · simpa [callArtifactInfo, h1, hn, findOrCreate, callBuildInfo, h2] using e2
        · simpa [callArtifactInfo, h1, hn, findOrCreate, callBuildInfo, h2] using
            BuildTrace.attached err b _ _ evs _ hn e3
      | fail err2 =>
        cases hn2 : notFound err2 with
        | false =>
          exact ⟨[Event.ArtifactInfo canon (Resp.fail err),
              Event.BuildInfo canon (Resp.fail err2)], [],
            by simp [callArtifactInfo, h1, hn, findOrCreate, callBuildInfo, h2, hn2],
            by simp [callArtifactInfo, h1, hn, findOrCreate, callBuildInfo, h2, hn2],
            by simp, by
              simpa [callArtifactInfo, h1, hn, findOrCreate, callBuildInfo, h2, hn2] using
                BuildTrace.lookupError err err2 hn hn2⟩
        | true =>
          cases h3 : (s.BuildCreate (s.BuildInfo (s.ArtifactInfo st.svc canon).2 canon).2 o).1 with
          | fail err3 =>
            exact ⟨[Event.ArtifactInfo canon (Resp.fail err),
                Event.BuildInfo canon (Resp.fail err2), Event.BuildCreate o (Resp.fail err3)], [],
              by simp [callArtifactInfo, h1, hn, findOrCreate, callBuildInfo, h2, hn2,
                callBuildCreate, h3],
              by simp [callArtifactInfo, h1, hn, findOrCreate, callBuildInfo, h2, hn2,
                callBuildCreate, h3],
              by simp, by
                simpa [callArtifactInfo, h1, hn, findOrCreate, callBuildInfo, h2, hn2,
                  callBuildCreate, h3] using BuildTrace.createError err err2 err3 hn hn2⟩
          | ok b =>
            obtain ⟨evs, e1, e2, e3⟩ := streamAndWait_trace s fuel canon b.ID
              (ioWriteString ("Build: " ++ b.ID ++ "\n")
                (callBuildCreate s o (callBuildInfo s canon (callArtifactInfo s canon st).2).2).2)
            refine ⟨Event.ArtifactInfo canon (Resp.fail err) ::
              Event.BuildInfo canon (Resp.fail err2) :: Event.BuildCreate o (Resp.ok b) ::
              Event.Write ("Build: " ++ b.ID ++ "\n") ::
              Event.LogsStream b.ID
                (s.LogsStream (s.BuildCreate
                  (s.BuildInfo (s.ArtifactInfo st.svc canon).2 canon).2 o).2 b.ID).1
                (s.LogsStream (s.BuildCreate
                  (s.BuildInfo (s.ArtifactInfo st.svc canon).2 canon).2 o).2 b.ID).2.1 :: evs,
              ("Build: " ++ b.ID ++ "\n") :: (s.LogsStream (s.BuildCreate
                  (s.BuildInfo (s.ArtifactInfo st.svc canon).2 canon).2 o).2 b.ID).1,
              ?_, ?_, by simp, ?_⟩
            · simpa [callArtifactInfo, h1, hn, findOrCreate, callBuildInfo, h2, hn2,
                callBuildCreate, h3, ioWriteString] using e1
            · simpa [callArtifactInfo, h1, hn, findOrCreate, callBuildInfo, h2, hn2,
                callBuildCreate, h3, ioWriteString] using e2
            · simpa [callArtifactInfo, h1, hn, findOrCreate, callBuildInfo, h2, hn2,
                callBuildCreate, h3, ioWriteString] using
                BuildTrace.created err err2 b _ _ evs _ hn hn2 e3

/-! ## Lemmas: fuel

Once the loop has ended, more fuel changes nothing: a result `none` for every
fuel is a run that never returns. -/

theorem pollLoop_fuel (s : Service σ) (buildID : String) :
    ∀ (n : Nat) (st : World σ) (x : LoopExit), (pollLoop s buildID n st).1 = some x →
      ∀ k, pollLoop s buildID (n + k) st = pollLoop s buildID n st := by
  intro n
  induction n with
  | zero => intro st x h; simp [pollLoop] at h
  | succ n ih =>
    intro st x h k
    have hk : n + 1 + k = (n + k) + 1 := by omega
    rw [hk, pollLoop_succ, pollLoop_succ]
    rw [pollLoop_succ] at h
    cases hr : (s.BuildInfo st.svc buildID).1 with
    | fail err => rfl
    | ok b =>
      rw [hr] at h
      by_cases hf : b.State = "failed"
      · simp [hf]
      · by_cases hc : b.CompletedAt.isSome = true
        · simp [hf, hc]
        · simp only [hf, hc, if_false] at h ⊢
          exact ih _ x h k

theorem Build_fuel (s : Service σ) (o : BuildCreateOpts) (st : World σ) (n : Nat)
    (r : Option Artifact × Option Error) (h : (s.Build n o st).1 = some r) :
    ∀ k, s.Build (n + k) o st = s.Build n o st := by
  intro k
  cases hsha : o.Sha with
  | none => simp [Service.Build, hsha]
  | some sha =>
    simp only [Service.Build, hsha] at h ⊢
    revert h
    generalize o.Repository ++ "@" ++ sha = canon
    rcases callArtifactInfo s canon st with ⟨xa, a1⟩
    cases xa with
    | ok art => intro _; rfl
    | fail err =>
      cases hn : notFound err with
      | false => intro _; simp [hn]
      | true =>
        simp only [hn, Bool.not_true, Bool.false_eq_true, if_false]
        rcases findOrCreate s canon o a1 with ⟨ya, a2⟩
        cases ya with
        | fail err2 => intro _; rfl
        | ok bd =>
          simp only [streamAndWait]
          generalize (match callLogsStream s bd.ID a2 with
            | (some err, st1) => reportStreamError err st1
            | (none, st1) => st1) = a3
          intro h
          cases hp : (pollLoop s bd.ID n a3).1 with
          | none =>
            have : (afterLoop s canon (pollLoop s bd.ID n a3)).1 = none := by
              rcases hq : pollLoop s bd.ID n a3 with ⟨x, a4⟩
              rw [hq] at hp
              simp only at hp
              subst hp
              rfl
            rw [this] at h
            exact absurd h (by simp)
          | some x => rw [pollLoop_fuel s bd.ID n a3 x hp k]

/-! ## Lemmas: what a wait trace contains -/

theorem WaitTrace.failed_last {c id : String} {n : Nat} {evs : List Event}
    {res : Option (Option Artifact × Option Error)} (t : WaitTrace c id n evs res) :
    ∀ k b, Event.BuildInfo k (Resp.ok b) ∈ evs → b.State = "failed" →
      k = id ∧ res = some (none, some (buildFailedError id)) ∧
      (∃ front, evs = front ++ [Event.BuildInfo id (Resp.ok b)]) ∧
      ∀ k2 r, Event.ArtifactInfo k2 r ∉ evs := by
  induction t with
  | exhausted => intro k b hm; simp at hm
  | callFailed n err => intro k b hm; simp at hm
  | buildFailed n b0 h =>
    intro k b hm hf
    simp at hm
    obtain ⟨rfl, rfl⟩ := hm
    exact ⟨rfl, rfl, ⟨[Event.After 5], rfl⟩, by simp⟩
  | completed n b0 r h =>
    intro k b hm hf
    simp at hm
    obtain ⟨rfl, rfl⟩ := hm
    exact absurd hf h.1
  | again n b0 evs res h t ih =>
    intro k b hm hf
    simp at hm
    rcases hm with ⟨rfl, rfl⟩ | hm
    · exact absurd hf h.1
    · obtain ⟨h1, h2, ⟨front, h3⟩, h4⟩ := ih k b hm hf
      refine ⟨h1, h2, ⟨Event.After 5 :: Event.BuildInfo id (Resp.ok b0) :: front, ?_⟩, ?_⟩
      · simp [h3]
      · intro k2 r hm2
        simp at hm2
        exact h4 k2 r hm2

theorem WaitTrace.callFailed_last {c id : String} {n : Nat} {evs : List Event}
    {res : Option (Option Artifact × Option Error)} (t : WaitTrace c id n evs res) :
    ∀ k err, Event.BuildInfo k (Resp.fail err) ∈ evs →
      k = id ∧ res = some (none, some err) ∧
      (∃ front, evs = front ++ [Event.BuildInfo id (Resp.fail err)]) ∧
      ∀ k2 r, Event.ArtifactInfo k2 r ∉ evs := by
  induction t with
  | exhausted => intro k b hm; simp at hm
  | callFailed n err =>
    intro k e hm
    simp at hm
    obtain ⟨rfl, rfl⟩ := hm
    exact ⟨rfl, rfl, ⟨[Event.After 5], rfl⟩, by simp⟩
  | buildFailed n b0 h => intro k e hm; simp at hm
  | completed n b0 r h => intro k e hm; simp at hm
  | again n b0 evs res h t ih =>
    intro k e hm
    simp at hm
    obtain ⟨h1, h2, ⟨front, h3⟩, h4⟩ := ih k e hm
    refine ⟨h1, h2, ⟨Event.After 5 :: Event.BuildInfo id (Resp.ok b0) :: front, ?_⟩, ?_⟩
    · simp [h3]
    · intro k2 r hm2
      simp at hm2
      exact h4 k2 r hm2

theorem WaitTrace.artifact_last {c id : String} {n : Nat} {evs : List Event}
    {res : Option (Option Artifact × Option Error)} (t : WaitTrace c id n evs res) :
    ∀ k r, Event.ArtifactInfo k r ∈ evs →
      k = c ∧ res = some r.toPair ∧
      (∃ front, evs = front ++ [Event.ArtifactInfo c r]) ∧
      ∃ b, Event.BuildInfo id (Resp.ok b) ∈ evs ∧ b.done := by
  induction t with
  | exhausted => intro k r hm; simp at hm
  | callFailed n err => intro k r hm; simp at hm
  | buildFailed n b0 h => intro k r hm; simp at hm
  | completed n b0 r0 h =>
    intro k r hm
    simp at hm
    obtain ⟨rfl, rfl⟩ := hm
    exact ⟨rfl, rfl, ⟨[Event.After 5, Event.BuildInfo id (Resp.ok b0)], rfl⟩, b0, by simp, h⟩
  | again n b0 evs res h t ih =>
    intro k r hm
    simp at hm
    obtain ⟨h1, h2, ⟨front, h3⟩, b, h4, h5⟩ := ih k r hm
    refine ⟨h1, h2, ⟨Event.After 5 :: Event.BuildInfo id (Resp.ok b0) :: front, ?_⟩, b, ?_, h5⟩
    · simp [h3]
    · simp [h4]

theorem WaitTrace.done_artifact {c id : String} {n : Nat} {evs : List Event}
    {res : Option (Option Artifact × Option Error)} (t : WaitTrace c id n evs res) :
    ∀ k b, Event.BuildInfo k (Resp.ok b) ∈ evs → b.done →
      ∃ r, Event.ArtifactInfo c r ∈ evs := by
  induction t with
  | exhausted => intro k b hm; simp at hm
  | callFailed n err => intro k b hm; simp at hm
  | buildFailed n b0 h =>
    intro k b hm hd
    simp at hm
    obtain ⟨rfl, rfl⟩ := hm
    exact absurd h hd.1
  | completed n b0 r0 h =>
    intro k b hm hd
    exact ⟨r0, by simp⟩
  | again n b0 evs res h t ih =>
    intro k b hm hd
    simp at hm
    rcases hm with ⟨rfl, rfl⟩ | hm
    · have := h.2
      have := hd.2
      simp_all
    · obtain ⟨r, hr⟩ := ih k b hm hd
      exact ⟨r, by simp [hr]⟩

theorem WaitTrace.events {c id : String} {n : Nat} {evs : List Event}
    {res : Option (Option Artifact × Option Error)} (t : WaitTrace c id n evs res) :
    ∀ e ∈ evs, e = Event.After 5 ∨ (∃ r, e = Event.BuildInfo id r) ∨
      (∃ r, e = Event.ArtifactInfo c r) := by
  induction t with
  | exhausted => intro e hm; simp at hm
  | callFailed n err => intro e hm; simp at hm; rcases hm with rfl | rfl <;> simp
  | buildFailed n b0 h => intro e hm; simp at hm; rcases hm with rfl | rfl <;> simp
  | completed n b0 r0 h => intro e hm; simp at hm; rcases hm with rfl | rfl | rfl <;> simp
  | again n b0 evs res h t ih =>
    intro e hm
    simp at hm
    rcases hm with rfl | rfl | hm
    · simp
    · simp
    · exact ih e hm

theorem WaitTrace.no_artifact {c id : String} {n : Nat} {evs : List Event}
    {res : Option (Option Artifact × Option Error)} (t : WaitTrace c id n evs res) :
    (∀ k r, Event.ArtifactInfo k r ∉ evs) →
      (∃ err, res = some (none, some err)) ∨
      (res = none ∧ evs.length = 2 * n ∧
        ∀ k r, Event.BuildInfo k r ∈ evs → ∃ b, r = Resp.ok b ∧ b.pending) := by
  induction t with
  | exhausted => intro _; right; simp
  | callFailed n err => intro _; left; exact ⟨err, rfl⟩
  | buildFailed n b0 h => intro _; left; exact ⟨_, rfl⟩
  | completed n b0 r0 h => intro hno; exact absurd (by simp) (hno c r0)
  | again n b0 evs res h t ih =>
    intro hno
    have hno2 : ∀ k r, Event.ArtifactInfo k r ∉ evs := by
      intro k r hm
      exact hno k r (by simp [hm])
    rcases ih hno2 with h1 | ⟨h1, h2, h3⟩
    · left; exact h1
    · right
      refine ⟨h1, by simp [h2]; omega, ?_⟩
      intro k r hm
      simp at hm
      rcases hm with ⟨rfl, rfl⟩ | hm
      · exact ⟨b0, rfl, h⟩
      · exact h3 k r hm

/-! ## Lemmas: whole runs -/

theorem Build_none_world (s : Service σ) (fuel : Nat) (o : BuildCreateOpts) (st : World σ)
    (h : o.Sha = none) : (s.Build fuel o st).2 = st := by
  simp [Service.Build, h]

/-- A run from `World.start` with `Sha` present has one of the six shapes. -/
theorem Build_trace_start (s : Service σ) (fuel : Nat) (o : BuildCreateOpts) (svc : σ)
    (w : List String) (sha : String) (hsha : o.Sha = some sha) :
    ∃ ws, (s.Build fuel o (World.start svc w)).2.w = w ++ ws ∧
      (s.Build fuel o (World.start svc w)).2.log.head? =
        some (Event.ArtifactInfo (o.Repository ++ "@" ++ sha)
          (s.ArtifactInfo svc (o.Repository ++ "@" ++ sha)).1) ∧
      BuildTrace o (o.Repository ++ "@" ++ sha) fuel
        (s.Build fuel o (World.start svc w)).2.log ws
        (s.Build fuel o (World.start svc w)).1 := by
  obtain ⟨evs, ws, h1, h2, h3, h4⟩ := Build_trace s fuel o (World.start svc w) sha hsha
  have hl : (s.Build fuel o (World.start svc w)).2.log = evs := by
    simpa [World.start] using h1
  refine ⟨ws, by simpa [World.start] using h2, ?_, ?_⟩
  · rw [hl]; simpa [World.start] using h3
  · rw [hl]; exact h4

theorem getLast?_three_append (a b c x : Event) (front : List Event) :
    (a :: b :: c :: (front ++ [x])).getLast? = some x := by
  have : a :: b :: c :: (front ++ [x]) = (a :: b :: c :: front) ++ [x] := by simp
  rw [this, List.getLast?_append]
  simp

theorem getLast?_five_append (a b c d e x : Event) (front : List Event) :
    (a :: b :: c :: d :: e :: (front ++ [x])).getLast? = some x := by
  have : a :: b :: c :: d :: e :: (front ++ [x]) = (a :: b :: c :: d :: e :: front) ++ [x] := by
    simp
  rw [this, List.getLast?_append]
  simp

/-- What a run that got past the first `ArtifactInfo` does about the final
fetch: the shared core of the statements on the second `ArtifactInfo` call. -/
theorem Build_fetch_core (s : Service σ) (fuel : Nat) (o : BuildCreateOpts) (svc : σ)
    (w : List String) (sha : String) (err : Error) (h : o.Sha = some sha)
    (h1 : (s.ArtifactInfo svc (o.Repository ++ "@" ++ sha)).1 = Resp.fail err) :
    ((∃ k r, Event.ArtifactInfo k r ∈ (s.Build fuel o (World.start svc w)).2.log.tail) ↔
      (∃ k b, Event.BuildInfo k (Resp.ok b) ∈
          pollEvents (s.Build fuel o (World.start svc w)).2.log ∧
        b.CompletedAt.isSome = true ∧ b.State ≠ "failed")) ∧
    (∀ k r, Event.ArtifactInfo k r ∈ (s.Build fuel o (World.start svc w)).2.log.tail →
      k = o.Repository ++ "@" ++ sha ∧
      (s.Build fuel o (World.start svc w)).1 = some r.toPair ∧
      (s.Build fuel o (World.start svc w)).2.log.getLast? =
        some (Event.ArtifactInfo (o.Repository ++ "@" ++ sha) r)) ∧
    ((∀ k r, Event.ArtifactInfo k r ∉ (s.Build fuel o (World.start svc w)).2.log.tail) →
      (∃ e, (s.Build fuel o (World.start svc w)).1 = some (none, some e)) ∨
      ((s.Build fuel o (World.start svc w)).1 = none ∧
        (pollEvents (s.Build fuel o (World.start svc w)).2.log).length = 2 * fuel ∧
        ∀ k r, Event.BuildInfo k r ∈ pollEvents (s.Build fuel o (World.start svc w)).2.log →
          ∃ b, r = Resp.ok b ∧ b.State ≠ "failed" ∧ b.CompletedAt = none)) := by
  obtain ⟨ws, _, hh, ht⟩ := Build_trace_start s fuel o svc w sha h
  rw [h1] at hh
  generalize o.Repository ++ "@" ++ sha = canon at *
  generalize (s.Build fuel o (World.start svc w)).2.log = log at *
  generalize (s.Build fuel o (World.start svc w)).1 = res at *
  cases ht with
  | cached a => simp at hh
  | artifactError err0 hn =>
    refine ⟨by simp [pollEvents], by simp, fun _ => Or.inl ⟨err0, rfl⟩⟩
  | lookupError err0 err2 hn hn2 =>
    refine ⟨by simp [pollEvents], by simp, fun _ => Or.inl ⟨err2, rfl⟩⟩
  | createError err0 err2 err3 hn hn2 =>
    refine ⟨by simp [pollEvents], by simp, fun _ => Or.inl ⟨err3, rfl⟩⟩
  | attached err0 b0 chunks0 lerr0 evs res0 hn t =>
    simp only [pollEvents, List.tail_cons]
    refine ⟨⟨?_, ?_⟩, ?_, ?_⟩
    · rintro ⟨k, r, hm⟩
      simp at hm
      obtain ⟨_, _, _, b, hb, hd⟩ := t.artifact_last k r hm
      exact ⟨_, b, hb, hd.2, hd.1⟩
    · rintro ⟨k, b, hm, hc, hf⟩
      obtain ⟨r, hr⟩ := t.done_artifact k b hm ⟨hf, hc⟩
      exact ⟨canon, r, by simp [hr]⟩
    · intro k r hm
      simp at hm
      obtain ⟨e1, e2, ⟨front, e3⟩, _⟩ := t.artifact_last k r hm
      refine ⟨e1, e2, ?_⟩
      rw [e3]
      exact getLast?_three_append _ _ _ _ _
    · intro hno
      have hno2 : ∀ k r, Event.ArtifactInfo k r ∉ evs := by
        intro k r hm
        exact hno k r (by simp [hm])
      rcases t.no_artifact hno2 with h2 | ⟨h2, h3, h4⟩
      · exact Or.inl h2
      · exact Or.inr ⟨h2, h3, h4⟩
  | created err0 err2 b0 chunks0 lerr0 evs res0 hn hn2 t =>
    simp only [pollEvents, List.tail_cons]
    refine ⟨⟨?_, ?_⟩, ?_, ?_⟩
    · rintro ⟨k, r, hm⟩
      simp at hm
      obtain ⟨_, _, _, b, hb, hd⟩ := t.artifact_last k r hm
      exact ⟨_, b, hb, hd.2, hd.1⟩
    · rintro ⟨k, b, hm, hc, hf⟩
      obtain ⟨r, hr⟩ := t.done_artifact k b hm ⟨hf, hc⟩
      exact ⟨canon, r, by simp [hr]⟩
    · intro k r hm
      simp at hm
      obtain ⟨e1, e2, ⟨front, e3⟩, _⟩ := t.artifact_last k r hm
      refine ⟨e1, e2, ?_⟩
      rw [e3]
      exact getLast?_five_append _ _ _ _ _ _ _
    · intro hno
      have hno2 : ∀ k r, Event.ArtifactInfo k r ∉ evs := by
        intro k r hm
        exact hno k r (by simp [hm])
      rcases t.no_artifact hno2 with h2 | ⟨h2, h3, h4⟩
      · exact Or.inl h2
      · exact Or.inr ⟨h2, h3, h4⟩

/-- The polling loop on the stuck scenario never ends, whatever the fuel. -/
theorem pollLoop_stuck (id : String) :
    ∀ (fuel : Nat) (st : World (Nat × Nat)),
      (pollLoop scenarioStuck.service id fuel st).1 = none := by
  intro fuel
  induction fuel with
  | zero => intro st; rfl
  | succ n ih =>
    intro st
    rw [pollLoop_succ]
    have hr : (scenarioStuck.service.BuildInfo st.svc id).1 = Resp.ok (buildPending "b1") := by
      cases hk : st.svc.2 <;> simp [Script.service, scenarioStuck, hk]
    rw [hr]
    have hs : ¬ (buildPending "b1").State = "failed" := by decide
    have hc : ¬ (buildPending "b1").CompletedAt.isSome = true := by decide
    simp only [hs, hc, if_false]
    exact ih _

theorem Build_stuck (fuel : Nat) :
    (scenarioStuck.service.Build fuel optsAcme (World.start (0, 0) [])).1 = none := by
  have h := pollLoop_stuck "b1" fuel
    (callLogsStream scenarioStuck.service "b1"
      (callBuildInfo scenarioStuck.service "r/a@abcd"
        (callArtifactInfo scenarioStuck.service "r/a@abcd" (World.start (0, 0) [])).2).2).2
  have hk : optsAcme.Repository ++ "@" ++ "abcd" = "r/a@abcd" := by decide
  simp only [Service.Build, optsAcme, hk]
  simp [callArtifactInfo, Script.service, scenarioStuck, World.start, notFound, errNotFound,
    findOrCreate, callBuildInfo, streamAndWait, callLogsStream, buildPending] at h ⊢
  revert h
  generalize pollLoop _ _ _ _ = pl
  intro h
  rcases pl with ⟨x, st⟩
  simp at h
  subst h
  rfl

/-! ## Lemmas: runs that differ only in the stream error -/

theorem pollLoop_sim (s1 s2 : Service σ) (id : String) (hB : s1.BuildInfo = s2.BuildInfo) :
    ∀ (fuel : Nat) (a b : World σ), a.sim b →
      (pollLoop s1 id fuel a).1 = (pollLoop s2 id fuel b).1 ∧
      (pollLoop s1 id fuel a).2.sim (pollLoop s2 id fuel b).2 := by
  intro fuel
  induction fuel with
  | zero => intro a b h; exact ⟨rfl, h⟩
  | succ n ih =>
    intro a b h
    obtain ⟨h1, h2, h3⟩ := h
    have hs : ((callBuildInfo s1 id (timeAfter 5 a)).2).sim
        (callBuildInfo s2 id (timeAfter 5 b)).2 := by
      simp [World.sim, callBuildInfo, timeAfter, hB, h1, h2, h3, Event.eraseStreamError]
    rw [pollLoop_succ, pollLoop_succ, hB, h1]
    cases hr : (s2.BuildInfo b.svc id).1 with
    | fail err => exact ⟨rfl, hs⟩
    | ok bd =>
      by_cases hf : bd.State = "failed"
      · simpa [hf] using hs
      · by_cases hc : bd.CompletedAt.isSome = true
        · simpa [hf, hc] using hs
        · simpa [hf, hc] using ih _ _ hs

theorem afterLoop_sim (s1 s2 : Service σ) (c : String) (hA : s1.ArtifactInfo = s2.ArtifactInfo)
    (x : Option LoopExit) (a b : World σ) (h : a.sim b) :
    (afterLoop s1 c (x, a)).1 = (afterLoop s2 c (x, b)).1 ∧
      (afterLoop s1 c (x, a)).2.sim (afterLoop s2 c (x, b)).2 := by
  obtain ⟨h1, h2, h3⟩ := h
  cases x with
  | none => exact ⟨rfl, h1, h2, h3⟩
  | some e =>
    cases e with
    | ret r err => exact ⟨rfl, h1, h2, h3⟩
    | brk =>
      simp [afterLoop, callArtifactInfo, World.sim, hA, h1, h2, h3, Event.eraseStreamError]

/-- The world in which the polling loop starts: after `LogsStream`, and after
the report of its error if it returned one. -/
theorem streamed_sim (s1 s2 : Service σ) (id : String)
    (hL : ∀ t id, (s1.LogsStream t id).1 = (s2.LogsStream t id).1 ∧
      (s1.LogsStream t id).2.2 = (s2.LogsStream t id).2.2)
    (a b : World σ) (h : a.sim b) :
    World.sim
      (match callLogsStream s1 id a with
        | (some err, st1) => reportStreamError err st1
        | (none, st1) => st1)
      (match callLogsStream s2 id b with
        | (some err, st1) => reportStreamError err st1
        | (none, st1) => st1) := by
  obtain ⟨h1, h2, h3⟩ := h
  have e1 := (hL b.svc id).1
  have e2 := (hL b.svc id).2
  rw [← h1] at e1 e2
  cases ha : (s1.LogsStream a.svc id).2.1 <;> cases hb : (s2.LogsStream b.svc id).2.1 <;>
    simp [World.sim, callLogsStream, reportStreamError, ha, hb, h2, h3, e1, e2,
      Event.eraseStreamError] <;> simp [h1]

theorem streamAndWait_sim (s1 s2 : Service σ) (fuel : Nat) (c id : String)
    (hA : s1.ArtifactInfo = s2.ArtifactInfo) (hB : s1.BuildInfo = s2.BuildInfo)
    (hL : ∀ t id, (s1.LogsStream t id).1 = (s2.LogsStream t id).1 ∧
      (s1.LogsStream t id).2.2 = (s2.LogsStream t id).2.2)
    (a b : World σ) (h : a.sim b) :
    (streamAndWait s1 fuel c id a).1 = (streamAndWait s2 fuel c id b).1 ∧
      (streamAndWait s1 fuel c id a).2.sim (streamAndWait s2 fuel c id b).2 := by
  have hsim := streamed_sim s1 s2 id hL a b h
  obtain ⟨p1, p2⟩ := pollLoop_sim s1 s2 id hB fuel _ _ hsim
  simp only [streamAndWait]
  revert p1 p2
  generalize pollLoop s1 id fuel _ = r1
  generalize pollLoop s2 id fuel _ = r2
  intro p1 p2
  rcases r1 with ⟨x1, a1⟩
  rcases r2 with ⟨x2, b1⟩
  simp only at p1
  subst p1
  exact afterLoop_sim s1 s2 c hA x1 a1 b1 p2

theorem findOrCreate_sim (s1 s2 : Service σ) (c : String) (o : BuildCreateOpts)
    (hB : s1.BuildInfo = s2.BuildInfo) (hC : s1.BuildCreate = s2.BuildCreate)
    (a b : World σ) (h : a.sim b) :
    (findOrCreate s1 c o a).1 = (findOrCreate s2 c o b).1 ∧
      (findOrCreate s1 c o a).2.sim (findOrCreate s2 c o b).2 := by
  obtain ⟨h1, h2, h3⟩ := h
  unfold findOrCreate
  cases hr : (s2.BuildInfo b.svc c).1 with
  | ok bd =>
    simp [callBuildInfo, hB, h1, hr, World.sim, h2, h3, Event.eraseStreamError]
  | fail err =>
    cases hn : notFound err with
    | false =>
      simp [callBuildInfo, hB, h1, hr, hn, World.sim, h2, h3, Event.eraseStreamError]
    | true =>
      cases hc : (s2.BuildCreate (s2.BuildInfo b.svc c).2 o).1 <;>
        simp [callBuildInfo, hB, h1, hr, hn, callBuildCreate, hC, hc, ioWriteString,
          World.sim, h2, h3, Event.eraseStreamError]

theorem Build_sim (s1 s2 : Service σ) (fuel : Nat) (o : BuildCreateOpts)
    (hA : s1.ArtifactInfo = s2.ArtifactInfo) (hB : s1.BuildInfo = s2.BuildInfo)
    (hC : s1.BuildCreate = s2.BuildCreate)
    (hL : ∀ t id, (s1.LogsStream t id).1 = (s2.LogsStream t id).1 ∧
      (s1.LogsStream t id).2.2 = (s2.LogsStream t id).2.2)
    (a b : World σ) (h : a.sim b) :
    (s1.Build fuel o a).1 = (s2.Build fuel o b).1 ∧
      (s1.Build fuel o a).2.sim (s2.Build fuel o b).2 := by
  obtain ⟨h1, h2, h3⟩ := h
  cases hsha : o.Sha with
  | none => simp [Service.Build, hsha, World.sim, h1, h2, h3]
  | some sha =>
    simp only [Service.Build, hsha]
    generalize o.Repository ++ "@" ++ sha = canon
    have sA : ((callArtifactInfo s1 canon a).2).sim (callArtifactInfo s2 canon b).2 := by
      simp [World.sim, callArtifactInfo, hA, h1, h2, h3, Event.eraseStreamError]
    have rA : (callArtifactInfo s1 canon a).1 = (callArtifactInfo s2 canon b).1 := by
      simp [callArtifactInfo, hA, h1]
    revert sA rA
    generalize callArtifactInfo s1 canon a = ra
    generalize callArtifactInfo s2 canon b = rb
    rcases ra with ⟨xa, a1⟩
    rcases rb with ⟨xb, b1⟩
    intro sA rA
    simp only at sA rA
    subst rA
    cases xa with
    | ok art => exact ⟨rfl, sA⟩
    | fail err =>
      cases hn : notFound err with
      | false => simpa [hn] using sA
      | true =>
        simp only [hn, Bool.not_true, Bool.false_eq_true, if_false]
        have fc := findOrCreate_sim s1 s2 canon o hB hC a1 b1 sA
        revert fc
        generalize findOrCreate s1 canon o a1 = fa
        generalize findOrCreate s2 canon o b1 = fb
        rcases fa with ⟨ya, a2⟩
        rcases fb with ⟨yb, b2⟩
        intro fc
        obtain ⟨f1, f2⟩ := fc
        simp only at f1 f2
        subst f1
        cases ya with
        | fail err2 => exact ⟨rfl, f2⟩
        | ok bd => exact streamAndWait_sim s1 s2 fuel canon bd.ID hA hB hL a2 b2 f2

/-! ## The build coordinator: claims -/

/-- C1: with `Sha` absent, `Build` returns no artifact and the error
"cannot build without sha", calls nothing and writes nothing: the world is
left exactly as it was, for every service, writer content and fuel. -/
theorem Build_without_sha (s : Service σ) (fuel : Nat) (o : BuildCreateOpts) (svc : σ)
    (w : List String) (h : o.Sha = none) :
    ∃ err, err.Message = "cannot build without sha" ∧
      (s.Build fuel o (World.start svc w)).1 = some (none, some err) ∧
      (s.Build fuel o (World.start svc w)).2.log = [] ∧
      (s.Build fuel o (World.start svc w)).2.w = w ∧
      (s.Build fuel o (World.start svc w)).2 = World.start svc w := by
  refine ⟨errorsNew "cannot build without sha", rfl, ?_⟩
  simp [Service.Build, h, World.start]

/-- C2: when the first `ArtifactInfo("<Repository>@<Sha>")` succeeds with
`X`, `Build` returns `X` without error, the whole event log is that single
call, and `w` is untouched. -/
theorem Build_cached (s : Service σ) (fuel : Nat) (o : BuildCreateOpts) (svc : σ)
    (w : List String) (sha : String) (X : Artifact) (h : o.Sha = some sha)
    (hX : (s.ArtifactInfo svc (o.Repository ++ "@" ++ sha)).1 = Resp.ok X) :
    (s.Build fuel o (World.start svc w)).1 = some (some X, none) ∧
      (s.Build fuel o (World.start svc w)).2.log =
        [Event.ArtifactInfo (o.Repository ++ "@" ++ sha) (Resp.ok X)] ∧
      (s.Build fuel o (World.start svc w)).2.w = w := by
  simp [Service.Build, h, World.start, callArtifactInfo, hX]

/-- C3: after a not-found first `ArtifactInfo`: when `BuildInfo(canon)` is
not-found and `BuildCreate(o)` succeeds with build `b`, the log is the three
calls, then the one write of "Build: <id>\n", then `LogsStream`, then only
timer waits, polls and the final fetch, and `w` receives that line followed by
the streamed chunks; when `BuildInfo(canon)` succeeds with `b`, the log is the
two calls, then `LogsStream`, then only waits, polls and the final fetch (no
`BuildCreate`, no write), and `w` receives exactly the streamed chunks. -/
theorem Build_line_once (s : Service σ) (fuel : Nat) (o : BuildCreateOpts) (svc : σ)
    (w : List String) (sha : String) (err : Error) (h : o.Sha = some sha)
    (h1 : (s.ArtifactInfo svc (o.Repository ++ "@" ++ sha)).1 = Resp.fail err)
    (hn : notFound err = true) :
    (∀ err2 b,
      (s.BuildInfo (s.ArtifactInfo svc (o.Repository ++ "@" ++ sha)).2
        (o.Repository ++ "@" ++ sha)).1 = Resp.fail err2 →
      notFound err2 = true →
      (s.BuildCreate (s.BuildInfo (s.ArtifactInfo svc (o.Repository ++ "@" ++ sha)).2
        (o.Repository ++ "@" ++ sha)).2 o).1 = Resp.ok b →
      ∃ chunks lerr rest,
        (s.Build fuel o (World.start svc w)).2.log =
          [Event.ArtifactInfo (o.Repository ++ "@" ++ sha) (Resp.fail err),
           Event.BuildInfo (o.Repository ++ "@" ++ sha) (Resp.fail err2),
           Event.BuildCreate o (Resp.ok b),
           Event.Write ("Build: " ++ b.ID ++ "\n"),
           Event.LogsStream b.ID chunks lerr] ++ rest ∧
        (∀ e ∈ rest, e = Event.After 5 ∨ (∃ r, e = Event.BuildInfo b.ID r) ∨
          (∃ r, e = Event.ArtifactInfo (o.Repository ++ "@" ++ sha) r)) ∧
        (s.Build fuel o (World.start svc w)).2.w =
          w ++ ["Build: " ++ b.ID ++ "\n"] ++ chunks) ∧
    (∀ b,
      (s.BuildInfo (s.ArtifactInfo svc (o.Repository ++ "@" ++ sha)).2
        (o.Repository ++ "@" ++ sha)).1 = Resp.ok b →
      ∃ chunks lerr rest,
        (s.Build fuel o (World.start svc w)).2.log =
          [Event.ArtifactInfo (o.Repository ++ "@" ++ sha) (Resp.fail err),
           Event.BuildInfo (o.Repository ++ "@" ++ sha) (Resp.ok b),
           Event.LogsStream b.ID chunks lerr] ++ rest ∧
        (∀ e ∈ rest, e = Event.After 5 ∨ (∃ r, e = Event.BuildInfo b.ID r) ∨
          (∃ r, e = Event.ArtifactInfo (o.Repository ++ "@" ++ sha) r)) ∧
        (s.Build fuel o (World.start svc w)).2.w = w ++ chunks) := by
  generalize hc : o.Repository ++ "@" ++ sha = canon at h1
  have hB : ∀ st : World σ, s.Build fuel o st =
      match callArtifactInfo s canon st with
      | (Resp.ok a, st1) => (some (some a, none), st1)
      | (Resp.fail err, st1) =>
        if !notFound err then (some (none, some err), st1)
        else
          match findOrCreate s canon o st1 with
          | (Resp.fail err2, st2) => (some (none, some err2), st2)
          | (Resp.ok b, st2) => streamAndWait s fuel canon b.ID st2 := by
    intro st
    simp [Service.Build, h, hc]
  constructor
  · intro err2 b h2 hn2 h3
    obtain ⟨evs, e1, e2, e3⟩ := streamAndWait_trace s fuel canon b.ID
      (ioWriteString ("Build: " ++ b.ID ++ "\n")
        (callBuildCreate s o (callBuildInfo s canon
          (callArtifactInfo s canon (World.start svc w)).2).2).2)
    refine ⟨(s.LogsStream (s.BuildCreate (s.BuildInfo (s.ArtifactInfo svc canon).2 canon).2
        o).2 b.ID).1, (s.LogsStream (s.BuildCreate (s.BuildInfo (s.ArtifactInfo svc canon).2
        canon).2 o).2 b.ID).2.1, evs, ?_, e3.events, ?_⟩
    · rw [hB]
      simpa [World.start, callArtifactInfo, h1, hn, findOrCreate, callBuildInfo, h2, hn2,
        callBuildCreate, h3, ioWriteString] using e1
    · rw [hB]
      simpa [World.start, callArtifactInfo, h1, hn, findOrCreate, callBuildInfo, h2, hn2,
        callBuildCreate, h3, ioWriteString] using e2
  · intro b h2
    obtain ⟨evs, e1, e2, e3⟩ := streamAndWait_trace s fuel canon b.ID
      (callBuildInfo s canon (callArtifactInfo s canon (World.start svc w)).2).2
    refine ⟨(s.LogsStream (s.BuildInfo (s.ArtifactInfo svc canon).2 canon).2 b.ID).1,
      (s.LogsStream (s.BuildInfo (s.ArtifactInfo svc canon).2 canon).2 b.ID).2.1, evs,
      ?_, e3.events, ?_⟩
    · rw [hB]
      simpa [World.start, callArtifactInfo, h1, hn, findOrCreate, callBuildInfo, h2] using e1
    · rw [hB]
      simpa [World.start, callArtifactInfo, h1, hn, findOrCreate, callBuildInfo, h2] using e2

/-- C5: in a run that reached the polling loop for build `id` (it called
`LogsStream` with `id`), a poll response with `State == "failed"`, whatever
its `CompletedAt`, was a `BuildInfo(id)` response, is the last event of the
run (no later call, no final `ArtifactInfo`), and `Build` has returned no
artifact and an error whose message is "build <id> failed". -/
theorem Build_failed_poll (s : Service σ) (fuel : Nat) (o : BuildCreateOpts) (svc : σ)
    (w : List String) (id : String) (chunks : List String) (lerr : Option Error)
    (k : String) (b : Build)
    (hreach : Event.LogsStream id chunks lerr ∈ (s.Build fuel o (World.start svc w)).2.log)
    (hpoll : Event.BuildInfo k (Resp.ok b) ∈
      pollEvents (s.Build fuel o (World.start svc w)).2.log)
    (hf : b.State = "failed") :
    k = id ∧
      (∃ err, err.Message = "build " ++ id ++ " failed" ∧
        (s.Build fuel o (World.start svc w)).1 = some (none, some err)) ∧
      (s.Build fuel o (World.start svc w)).2.log.getLast? =
        some (Event.BuildInfo id (Resp.ok b)) ∧
      ∀ k2 r, Event.ArtifactInfo k2 r ∉
        pollEvents (s.Build fuel o (World.start svc w)).2.log := by
  cases hsha : o.Sha with
  | none =>
    rw [Build_none_world s fuel o _ hsha] at hreach
    simp [World.start] at hreach
  | some sha =>
    obtain ⟨ws, _, _, ht⟩ := Build_trace_start s fuel o svc w sha hsha
    generalize (s.Build fuel o (World.start svc w)).2.log = log at *
    generalize (s.Build fuel o (World.start svc w)).1 = res at *
    cases ht with
    | cached a => simp at hreach
    | artifactError err h => simp at hreach
    | lookupError err err2 h h2 => simp at hreach
    | createError err err2 err3 h h2 => simp at hreach
    | attached err b0 chunks0 lerr0 evs res0 h t =>
      have hid : id = b0.ID := by
        simp at hreach
        rcases hreach with ⟨h1, _, _⟩ | hm
        · exact h1
        · rcases t.events _ hm with h | ⟨r, h⟩ | ⟨r, h⟩ <;> simp at h
      subst hid
      simp only [pollEvents] at hpoll ⊢
      obtain ⟨h1, h2, ⟨front, h3⟩, h4⟩ := t.failed_last k b hpoll hf
      refine ⟨h1, ⟨buildFailedError b0.ID, rfl, h2⟩, ?_, h4⟩
      rw [h3]
      exact getLast?_three_append _ _ _ _ _
    | created err err2 b0 chunks0 lerr0 evs res0 h h2 t =>
      have hid : id = b0.ID := by
        simp at hreach
        rcases hreach with ⟨h1, _, _⟩ | hm
        · exact h1
        · rcases t.events _ hm with h | ⟨r, h⟩ | ⟨r, h⟩ <;> simp at h
      subst hid
      simp only [pollEvents] at hpoll ⊢
      obtain ⟨h1, h2, ⟨front, h3⟩, h4⟩ := t.failed_last k b hpoll hf
      refine ⟨h1, ⟨buildFailedError b0.ID, rfl, h2⟩, ?_, h4⟩
      rw [h3]
      exact getLast?_five_append _ _ _ _ _ _ _

/-- C4 (amended): in a run that got past the first `ArtifactInfo`, the second
`ArtifactInfo` call is made exactly when a poll observed a response with
`CompletedAt` set and `State` other than "failed"; when it is made it is the
last event and `Build` returns its result; when it is not made, `Build` either
has returned an error or has not returned: then all `fuel` polls were made
and each reported a build neither failed nor completed. -/
theorem Build_final_fetch (s : Service σ) (fuel : Nat) (o : BuildCreateOpts) (svc : σ)
    (w : List String) (sha : String) (err : Error) (h : o.Sha = some sha)
    (h1 : (s.ArtifactInfo svc (o.Repository ++ "@" ++ sha)).1 = Resp.fail err)
    (_hn : notFound err = true) :
    ((∃ k r, Event.ArtifactInfo k r ∈ (s.Build fuel o (World.start svc w)).2.log.tail) ↔
      (∃ k b, Event.BuildInfo k (Resp.ok b) ∈
          pollEvents (s.Build fuel o (World.start svc w)).2.log ∧
        b.CompletedAt.isSome = true ∧ b.State ≠ "failed")) ∧
    (∀ k r, Event.ArtifactInfo k r ∈ (s.Build fuel o (World.start svc w)).2.log.tail →
      k = o.Repository ++ "@" ++ sha ∧
      (s.Build fuel o (World.start svc w)).1 = some r.toPair ∧
      (s.Build fuel o (World.start svc w)).2.log.getLast? =
        some (Event.ArtifactInfo (o.Repository ++ "@" ++ sha) r)) ∧
    ((∀ k r, Event.ArtifactInfo k r ∉ (s.Build fuel o (World.start svc w)).2.log.tail) →
      (∃ e, (s.Build fuel o (World.start svc w)).1 = some (none, some e)) ∨
      ((s.Build fuel o (World.start svc w)).1 = none ∧
        (pollEvents (s.Build fuel o (World.start svc w)).2.log).length = 2 * fuel ∧
        ∀ k r, Event.BuildInfo k r ∈ pollEvents (s.Build fuel o (World.start svc w)).2.log →
          ∃ b, r = Resp.ok b ∧ b.State ≠ "failed" ∧ b.CompletedAt = none)) :=
  Build_fetch_core s fuel o svc w sha err h h1

/-- C4 as stated fails: on the stuck scenario the run gets past the first
`ArtifactInfo` (not-found), never makes the second `ArtifactInfo` call, and
for no number of polls does `Build` return an error: it never returns. -/
theorem Build_final_fetch_counterexample :
    (scenarioStuck.service.ArtifactInfo (0, 0) "r/a@abcd").1 = Resp.fail errNotFound ∧
    notFound errNotFound = true ∧
    (∀ fuel k r, Event.ArtifactInfo k r ∉
      (scenarioStuck.service.Build fuel optsAcme (World.start (0, 0) [])).2.log.tail) ∧
    ¬ ∃ fuel e, (scenarioStuck.service.Build fuel optsAcme (World.start (0, 0) [])).1 =
      some (none, some e) := by
  refine ⟨rfl, rfl, ?_, ?_⟩
  · intro fuel k r hm
    have hc := (Build_fetch_core scenarioStuck.service fuel optsAcme (0, 0) [] "abcd"
      errNotFound rfl rfl).2.1 k r hm
    rw [Build_stuck fuel] at hc
    exact absurd hc.2.1 (by simp)
  · rintro ⟨fuel, e, he⟩
    rw [Build_stuck fuel] at he
    exact absurd he (by simp)

/-- C6: with `Sha` present, the first event is `ArtifactInfo` under the key
`Repository ++ "@" ++ Sha`; every `ArtifactInfo` call of the run (first and
final) uses that key; so does every `BuildInfo` call made before
`LogsStream` (the find-or-create lookup); and when `LogsStream` is called, it
is called with the `ID` of the build the lookup or the creation returned, and
every later `BuildInfo` call (the polls) uses that `ID`. -/
theorem Build_keys (s : Service σ) (fuel : Nat) (o : BuildCreateOpts) (svc : σ)
    (w : List String) (sha : String) (h : o.Sha = some sha) :
    (s.Build fuel o (World.start svc w)).2.log.head? =
        some (Event.ArtifactInfo (o.Repository ++ "@" ++ sha)
          (s.ArtifactInfo svc (o.Repository ++ "@" ++ sha)).1) ∧
    (∀ k r, Event.ArtifactInfo k r ∈ (s.Build fuel o (World.start svc w)).2.log →
      k = o.Repository ++ "@" ++ sha) ∧
    (∀ k r, Event.BuildInfo k r ∈ setupEvents (s.Build fuel o (World.start svc w)).2.log →
      k = o.Repository ++ "@" ++ sha) ∧
    (∀ id chunks lerr,
      Event.LogsStream id chunks lerr ∈ (s.Build fuel o (World.start svc w)).2.log →
      (∃ b, b.ID = id ∧
        (Event.BuildInfo (o.Repository ++ "@" ++ sha) (Resp.ok b) ∈
            setupEvents (s.Build fuel o (World.start svc w)).2.log ∨
          Event.BuildCreate o (Resp.ok b) ∈
            setupEvents (s.Build fuel o (World.start svc w)).2.log)) ∧
      ∀ k r, Event.BuildInfo k r ∈ pollEvents (s.Build fuel o (World.start svc w)).2.log →
        k = id) := by
  obtain ⟨ws, _, hh, ht⟩ := Build_trace_start s fuel o svc w sha h
  refine ⟨hh, ?_⟩
  clear hh
  generalize o.Repository ++ "@" ++ sha = canon at *
  generalize (s.Build fuel o (World.start svc w)).2.log = log at *
  generalize (s.Build fuel o (World.start svc w)).1 = res at *
  have key : ∀ {id : String} {n : Nat} {evs : List Event}
      {res : Option (Option Artifact × Option Error)}, WaitTrace canon id n evs res →
      (∀ k r, Event.ArtifactInfo k r ∈ evs → k = canon) ∧
      (∀ k r, Event.BuildInfo k r ∈ evs → k = id) ∧
      (∀ i c l, Event.LogsStream i c l ∉ evs) := by
    intro id n evs res t
    refine ⟨?_, ?_, ?_⟩
    · intro k r hm
      rcases t.events _ hm with h | ⟨r, h⟩ | ⟨r, h⟩ <;> simp at h
      exact h.1
    · intro k r hm
      rcases t.events _ hm with h | ⟨r, h⟩ | ⟨r, h⟩ <;> simp at h
      exact h.1
    · intro i c l hm
      rcases t.events _ hm with h | ⟨r, h⟩ | ⟨r, h⟩ <;> simp at h
  cases ht with
  | cached a => simp [setupEvents]
  | artifactError err0 hn => simp [setupEvents]
  | lookupError err0 err2 hn hn2 => simp [setupEvents]
  | createError err0 err2 err3 hn hn2 => simp [setupEvents]
  | attached err0 b0 chunks0 lerr0 evs res0 hn t =>
    obtain ⟨k1, k2, k3⟩ := key t
    simp only [setupEvents, pollEvents]
    refine ⟨?_, ?_, ?_⟩
    · intro k r hm
      simp at hm
      rcases hm with ⟨rfl, _⟩ | hm
      · rfl
      · exact k1 k r hm
    · intro k r hm
      simp at hm
      exact hm.1
    · intro id chunks lerr hm
      simp at hm
      rcases hm with ⟨rfl, _, _⟩ | hm
      · exact ⟨⟨b0, rfl, Or.inl (by simp)⟩, k2⟩
      · exact absurd hm (k3 _ _ _)
  | created err0 err2 b0 chunks0 lerr0 evs res0 hn hn2 t =>
    obtain ⟨k1, k2, k3⟩ := key t
    simp only [setupEvents, pollEvents]
    refine ⟨?_, ?_, ?_⟩
    · intro k r hm
      simp at hm
      rcases hm with ⟨rfl, _⟩ | hm
      · rfl
      · exact k1 k r hm
    · intro k r hm
      simp at hm
      exact hm.1
    · intro id chunks lerr hm
      simp at hm
      rcases hm with ⟨rfl, _, _⟩ | hm
      · exact ⟨⟨b0, rfl, Or.inr (by simp)⟩, k2⟩
      · exact absurd hm (k3 _ _ _)

/-- C7: two services that answer `ArtifactInfo`, `BuildInfo` and `BuildCreate`
alike and whose `LogsStream` writes the same chunks and leaves the same
service state, but may differ in the error `LogsStream` returns, give the same
result of `Build`, the same final service state, the same content of `w`, and
the same event log up to the error recorded in the `LogsStream` event. -/
theorem Build_stream_best_effort (s1 s2 : Service σ) (fuel : Nat) (o : BuildCreateOpts)
    (svc : σ) (w : List String)
    (hA : s1.ArtifactInfo = s2.ArtifactInfo) (hB : s1.BuildInfo = s2.BuildInfo)
    (hC : s1.BuildCreate = s2.BuildCreate)
    (hL : ∀ t id, (s1.LogsStream t id).1 = (s2.LogsStream t id).1 ∧
      (s1.LogsStream t id).2.2 = (s2.LogsStream t id).2.2) :
    (s1.Build fuel o (World.start svc w)).1 = (s2.Build fuel o (World.start svc w)).1 ∧
    (s1.Build fuel o (World.start svc w)).2.svc = (s2.Build fuel o (World.start svc w)).2.svc ∧
    (s1.Build fuel o (World.start svc w)).2.w = (s2.Build fuel o (World.start svc w)).2.w ∧
    (s1.Build fuel o (World.start svc w)).2.log.map Event.eraseStreamError =
      (s2.Build fuel o (World.start svc w)).2.log.map Event.eraseStreamError :=
  Build_sim s1 s2 fuel o hA hB hC hL (World.start svc w) (World.start svc w) ⟨rfl, rfl, rfl⟩

/-- C10: with `Sha` present, errors are surfaced unchanged and stop the run:
(a) a first `ArtifactInfo` error that is not not-found is returned and that
call is the whole log; (b) after a not-found artifact, a `BuildInfo(canon)`
error that is not not-found is returned and the log is those two calls;
(c) after both lookups are not-found, any `BuildCreate` error is returned, the
log is those three calls and `w` is untouched; (d) any error of a polling
`BuildInfo` is returned, that poll is the last event, and no `ArtifactInfo`
call follows `LogsStream`. -/
theorem Build_surfaces_errors (s : Service σ) (fuel : Nat) (o : BuildCreateOpts) (svc : σ)
    (w : List String) (sha : String) (h : o.Sha = some sha) :
    (∀ e, (s.ArtifactInfo svc (o.Repository ++ "@" ++ sha)).1 = Resp.fail e →
      notFound e = false →
      (s.Build fuel o (World.start svc w)).1 = some (none, some e) ∧
      (s.Build fuel o (World.start svc w)).2.log =
        [Event.ArtifactInfo (o.Repository ++ "@" ++ sha) (Resp.fail e)] ∧
      (s.Build fuel o (World.start svc w)).2.w = w) ∧
    (∀ e0 e, (s.ArtifactInfo svc (o.Repository ++ "@" ++ sha)).1 = Resp.fail e0 →
      notFound e0 = true →
      (s.BuildInfo (s.ArtifactInfo svc (o.Repository ++ "@" ++ sha)).2
        (o.Repository ++ "@" ++ sha)).1 = Resp.fail e →
      notFound e = false →
      (s.Build fuel o (World.start svc w)).1 = some (none, some e) ∧
      (s.Build fuel o (World.start svc w)).2.log =
        [Event.ArtifactInfo (o.Repository ++ "@" ++ sha) (Resp.fail e0),
         Event.BuildInfo (o.Repository ++ "@" ++ sha) (Resp.fail e)] ∧
      (s.Build fuel o (World.start svc w)).2.w = w) ∧
    (∀ e0 e1 e, (s.ArtifactInfo svc (o.Repository ++ "@" ++ sha)).1 = Resp.fail e0 →
      notFound e0 = true →
      (s.BuildInfo (s.ArtifactInfo svc (o.Repository ++ "@" ++ sha)).2
        (o.Repository ++ "@" ++ sha)).1 = Resp.fail e1 →
      notFound e1 = true →
      (s.BuildCreate (s.BuildInfo (s.ArtifactInfo svc (o.Repository ++ "@" ++ sha)).2
        (o.Repository ++ "@" ++ sha)).2 o).1 = Resp.fail e →
      (s.Build fuel o (World.start svc w)).1 = some (none, some e) ∧
      (s.Build fuel o (World.start svc w)).2.log =
        [Event.ArtifactInfo (o.Repository ++ "@" ++ sha) (Resp.fail e0),
         Event.BuildInfo (o.Repository ++ "@" ++ sha) (Resp.fail e1),
         Event.BuildCreate o (Resp.fail e)] ∧
      (s.Build fuel o (World.start svc w)).2.w = w) ∧
    (∀ k e, Event.BuildInfo k (Resp.fail e) ∈
        pollEvents (s.Build fuel o (World.start svc w)).2.log →
      (s.Build fuel o (World.start svc w)).1 = some (none, some e) ∧
      (s.Build fuel o (World.start svc w)).2.log.getLast? =
        some (Event.BuildInfo k (Resp.fail e)) ∧
      ∀ k2 r, Event.ArtifactInfo k2 r ∉
        pollEvents (s.Build fuel o (World.start svc w)).2.log) := by
  refine ⟨?_, ?_, ?_, ?_⟩
  · intro e h1 hn
    simp [Service.Build, h, World.start, callArtifactInfo, h1, hn]
  · intro e0 e h1 hn h2 hn2
    simp [Service.Build, h, World.start, callArtifactInfo, h1, hn, findOrCreate,
      callBuildInfo, h2, hn2]
  · intro e0 e1 e h1 hn h2 hn2 h3
    simp [Service.Build, h, World.start, callArtifactInfo, h1, hn, findOrCreate,
      callBuildInfo, h2, hn2, callBuildCreate, h3]
  · intro k e hm
    obtain ⟨ws, _, _, ht⟩ := Build_trace_start s fuel o svc w sha h
    generalize o.Repository ++ "@" ++ sha = canon at *
    generalize (s.Build fuel o (World.start svc w)).2.log = log at *
    generalize (s.Build fuel o (World.start svc w)).1 = res at *
    cases ht with
    | cached a => simp [pollEvents] at hm
    | artifactError err hn => simp [pollEvents] at hm
    | lookupError err err2 hn hn2 => simp [pollEvents] at hm
    | createError err err2 err3 hn hn2 => simp [pollEvents] at hm
    | attached err b0 chunks0 lerr0 evs res0 hn t =>
      simp only [pollEvents] at hm ⊢
      obtain ⟨h1, h2, ⟨front, h3⟩, h4⟩ := t.callFailed_last k e hm
      subst h1
      refine ⟨h2, ?_, h4⟩
      rw [h3]
      exact getLast?_three_append _ _ _ _ _
    | created err err2 b0 chunks0 lerr0 evs res0 hn hn2 t =>
      simp only [pollEvents] at hm ⊢
      obtain ⟨h1, h2, ⟨front, h3⟩, h4⟩ := t.callFailed_last k e hm
      subst h1
      refine ⟨h2, ?_, h4⟩
      rw [h3]
      exact getLast?_five_append _ _ _ _ _ _ _

/-- C8 (amended): a `Sha` that is present but empty is not rejected: the run
starts with the call `ArtifactInfo("<Repository>@")`, so it reaches the
service, and when that call succeeds with `X`, `Build` returns `X` without
error. -/
theorem Build_empty_sha (s : Service σ) (fuel : Nat) (o : BuildCreateOpts) (svc : σ)
    (w : List String) (h : o.Sha = some "") :
    (s.Build fuel o (World.start svc w)).2.log.head? =
        some (Event.ArtifactInfo (o.Repository ++ "@")
          (s.ArtifactInfo svc (o.Repository ++ "@")).1) ∧
    (∀ X, (s.ArtifactInfo svc (o.Repository ++ "@")).1 = Resp.ok X →
      (s.Build fuel o (World.start svc w)).1 = some (some X, none)) := by
  have hk : o.Repository ++ "@" ++ "" = o.Repository ++ "@" := by simp
  obtain ⟨ws, _, hh, ht⟩ := Build_trace_start s fuel o svc w "" h
  rw [hk] at hh
  refine ⟨hh, ?_⟩
  intro X hX
  simp [Service.Build, h, World.start, callArtifactInfo, hX]

/-- C8 as stated fails: with `Sha` the empty string and a service that knows
the artifact under "r/a@", `Build` calls `ArtifactInfo("r/a@")` and returns the
artifact, not the error "cannot build without sha". -/
theorem Build_empty_sha_counterexample :
    optsEmptySha.Sha = some "" ∧
    (scenarioCached.service.Build 0 optsEmptySha (World.start (0, 0) [])).1 =
      some (some artifactX, none) ∧
    (scenarioCached.service.Build 0 optsEmptySha (World.start (0, 0) [])).2.log =
      [Event.ArtifactInfo "r/a@" (Resp.ok artifactX)] ∧
    ¬ ∃ err, err.Message = "cannot build without sha" ∧
      (scenarioCached.service.Build 0 optsEmptySha (World.start (0, 0) [])).1 =
        some (none, some err) := by
  refine ⟨rfl, rfl, rfl, ?_⟩
  rintro ⟨err, _, he⟩
  have h : (scenarioCached.service.Build 0 optsEmptySha (World.start (0, 0) [])).1 =
      some (some artifactX, none) := rfl
  rw [h] at he
  simp at he

/-! ## The build coordinator: the claims on concrete runs -/

/-- C1 on scenario 1 with `Sha` absent and a writer that already holds a
payload. -/
theorem Build_without_sha_witness :
    optsNoSha.Sha = none ∧
    ∃ err, err.Message = "cannot build without sha" ∧
      (scenarioCached.service.Build 3 optsNoSha (World.start (0, 0) ["earlier"])).1 =
        some (none, some err) ∧
      (scenarioCached.service.Build 3 optsNoSha (World.start (0, 0) ["earlier"])).2.log = [] ∧
      (scenarioCached.service.Build 3 optsNoSha (World.start (0, 0) ["earlier"])).2.w =
        ["earlier"] ∧
      (scenarioCached.service.Build 3 optsNoSha (World.start (0, 0) ["earlier"])).2 =
        World.start (0, 0) ["earlier"] :=
  ⟨rfl, Build_without_sha scenarioCached.service 3 optsNoSha (0, 0) ["earlier"] rfl⟩

/-- C2 on scenario 1 of the specification (cached artifact). -/
theorem Build_cached_witness :
    optsAcme.Sha = some "abcd" ∧
    (scenarioCached.service.ArtifactInfo (0, 0) "r/a@abcd").1 = Resp.ok artifactX ∧
    (scenarioCached.service.Build 3 optsAcme (World.start (0, 0) ["earlier"])).1 =
      some (some artifactX, none) ∧
    (scenarioCached.service.Build 3 optsAcme (World.start (0, 0) ["earlier"])).2.log =
      [Event.ArtifactInfo "r/a@abcd" (Resp.ok artifactX)] ∧
    (scenarioCached.service.Build 3 optsAcme (World.start (0, 0) ["earlier"])).2.w =
      ["earlier"] :=
  ⟨rfl, rfl,
    Build_cached scenarioCached.service 3 optsAcme (0, 0) ["earlier"] "abcd" artifactX rfl rfl⟩

/-- C5 on scenario 4 (a created build fails, `CompletedAt` unset) and on an
attached build that fails with `CompletedAt` set. -/
theorem Build_failed_poll_witness :
    (Event.LogsStream "b2" ["log..."] none ∈
        (scenarioFailure.service.Build 5 optsAcme (World.start (0, 0) [])).2.log ∧
      Event.BuildInfo "b2" (Resp.ok (buildFailed "b2" none)) ∈
        pollEvents (scenarioFailure.service.Build 5 optsAcme (World.start (0, 0) [])).2.log ∧
      (∃ err, err.Message = "build " ++ "b2" ++ " failed" ∧
        (scenarioFailure.service.Build 5 optsAcme (World.start (0, 0) [])).1 =
          some (none, some err)) ∧
      (scenarioFailure.service.Build 5 optsAcme (World.start (0, 0) [])).2.log.getLast? =
        some (Event.BuildInfo "b2" (Resp.ok (buildFailed "b2" none)))) ∧
    (Event.LogsStream "b1" ["log..."] none ∈
        (scenarioAttachFailure.service.Build 5 optsAcme (World.start (0, 0) [])).2.log ∧
      (∃ err, err.Message = "build " ++ "b1" ++ " failed" ∧
        (scenarioAttachFailure.service.Build 5 optsAcme (World.start (0, 0) [])).1 =
          some (none, some err)) ∧
      (scenarioAttachFailure.service.Build 5 optsAcme (World.start (0, 0) [])).2.log.getLast? =
        some (Event.BuildInfo "b1" (Resp.ok (buildFailed "b1" (some 1700000000))))) :=
  ⟨⟨by decide, by decide,
      (Build_failed_poll scenarioFailure.service 5 optsAcme (0, 0) [] "b2" ["log..."]
        none "b2" (buildFailed "b2" none) (by decide) (by decide) rfl).2.1,
      (Build_failed_poll scenarioFailure.service 5 optsAcme (0, 0) [] "b2" ["log..."]
        none "b2" (buildFailed "b2" none) (by decide) (by decide) rfl).2.2.1⟩,
    ⟨by decide,
      (Build_failed_poll scenarioAttachFailure.service 5 optsAcme (0, 0) [] "b1"
        ["log..."] none "b1" (buildFailed "b1" (some 1700000000))
        (by decide) (by decide) rfl).2.1,
      (Build_failed_poll scenarioAttachFailure.service 5 optsAcme (0, 0) [] "b1"
        ["log..."] none "b1" (buildFailed "b1" (some 1700000000))
        (by decide) (by decide) rfl).2.2.1⟩⟩

/-- C3 on scenario 3 (created build) and scenario 2 (attached build). -/
theorem Build_line_once_witness :
    (∃ chunks lerr rest,
      (scenarioCreate.service.Build 5 optsAcme (World.start (0, 0) ["earlier"])).2.log =
        [Event.ArtifactInfo "r/a@abcd" (Resp.fail errNotFound),
         Event.BuildInfo "r/a@abcd" (Resp.fail errNotFound),
         Event.BuildCreate optsAcme (Resp.ok (buildPending "b2")),
         Event.Write "Build: b2\n",
         Event.LogsStream "b2" chunks lerr] ++ rest ∧
      (∀ e ∈ rest, e = Event.After 5 ∨ (∃ r, e = Event.BuildInfo "b2" r) ∨
        (∃ r, e = Event.ArtifactInfo "r/a@abcd" r)) ∧
      (scenarioCreate.service.Build 5 optsAcme (World.start (0, 0) ["earlier"])).2.w =
        ["earlier"] ++ ["Build: b2\n"] ++ chunks) ∧
    (∃ chunks lerr rest,
      (scenarioAttach.service.Build 5 optsAcme (World.start (0, 0) ["earlier"])).2.log =
        [Event.ArtifactInfo "r/a@abcd" (Resp.fail errNotFound),
         Event.BuildInfo "r/a@abcd" (Resp.ok (buildPending "b1")),
         Event.LogsStream "b1" chunks lerr] ++ rest ∧
      (∀ e ∈ rest, e = Event.After 5 ∨ (∃ r, e = Event.BuildInfo "b1" r) ∨
        (∃ r, e = Event.ArtifactInfo "r/a@abcd" r)) ∧
      (scenarioAttach.service.Build 5 optsAcme (World.start (0, 0) ["earlier"])).2.w =
        ["earlier"] ++ chunks) :=
  ⟨(Build_line_once scenarioCreate.service 5 optsAcme (0, 0) ["earlier"] "abcd" errNotFound
      rfl rfl rfl).1 errNotFound (buildPending "b2") rfl rfl rfl,
    (Build_line_once scenarioAttach.service 5 optsAcme (0, 0) ["earlier"] "abcd" errNotFound
      rfl rfl rfl).2 (buildPending "b1") rfl⟩

/-- C4 (amended) on scenario 3, where the final fetch is made and returned,
and on the stuck scenario, where two polls leave `Build` still polling. -/
theorem Build_final_fetch_witness :
    optsAcme.Sha = some "abcd" ∧
    (scenarioCreate.service.ArtifactInfo (0, 0) "r/a@abcd").1 = Resp.fail errNotFound ∧
    notFound errNotFound = true ∧
    Event.ArtifactInfo "r/a@abcd" (Resp.ok artifactY) ∈
      (scenarioCreate.service.Build 5 optsAcme (World.start (0, 0) [])).2.log.tail ∧
    (∃ k b, Event.BuildInfo k (Resp.ok b) ∈
        pollEvents (scenarioCreate.service.Build 5 optsAcme (World.start (0, 0) [])).2.log ∧
      b.CompletedAt.isSome = true ∧ b.State ≠ "failed") ∧
    (scenarioCreate.service.Build 5 optsAcme (World.start (0, 0) [])).1 =
      some (Resp.ok artifactY).toPair ∧
    ((scenarioStuck.service.Build 2 optsAcme (World.start (0, 0) [])).1 = none ∧
      (pollEvents (scenarioStuck.service.Build 2 optsAcme (World.start (0, 0) [])).2.log).length
        = 2 * 2) :=
  ⟨rfl, rfl, rfl, by decide,
    (Build_final_fetch scenarioCreate.service 5 optsAcme (0, 0) [] "abcd" errNotFound
      rfl rfl rfl).1.1 ⟨"r/a@abcd", Resp.ok artifactY, by decide⟩,
    ((Build_final_fetch scenarioCreate.service 5 optsAcme (0, 0) [] "abcd" errNotFound
      rfl rfl rfl).2.1 "r/a@abcd" (Resp.ok artifactY) (by decide)).2.1,
    by
      have hno : ∀ k r, Event.ArtifactInfo k r ∉
          (scenarioStuck.service.Build 2 optsAcme (World.start (0, 0) [])).2.log.tail := by
        intro k r hm
        have hl : (scenarioStuck.service.Build 2 optsAcme (World.start (0, 0) [])).2.log.tail =
            [Event.BuildInfo "r/a@abcd" (Resp.ok (buildPending "b1")),
             Event.LogsStream "b1" [] none,
             Event.After 5, Event.BuildInfo "b1" (Resp.ok (buildPending "b1")),
             Event.After 5, Event.BuildInfo "b1" (Resp.ok (buildPending "b1"))] := rfl
        rw [hl] at hm
        simp at hm
      rcases (Build_final_fetch scenarioStuck.service 2 optsAcme (0, 0) [] "abcd" errNotFound
        rfl rfl rfl).2.2 hno with ⟨e, he⟩ | ⟨h1, h2, _⟩
      · have hr : (scenarioStuck.service.Build 2 optsAcme (World.start (0, 0) [])).1 = none :=
          rfl
        rw [hr] at he
        exact absurd he (by simp)
      · exact ⟨h1, h2⟩⟩

/-- C6 on scenario 3: the whole log, with the key "r/a@abcd" and the build
`ID` "b2". -/
theorem Build_keys_witness :
    optsAcme.Sha = some "abcd" ∧
    (scenarioCreate.service.Build 5 optsAcme (World.start (0, 0) [])).2.log =
      [Event.ArtifactInfo "r/a@abcd" (Resp.fail errNotFound),
       Event.BuildInfo "r/a@abcd" (Resp.fail errNotFound),
       Event.BuildCreate optsAcme (Resp.ok (buildPending "b2")),
       Event.Write "Build: b2\n",
       Event.LogsStream "b2" ["log..."] none,
       Event.After 5, Event.BuildInfo "b2" (Resp.ok (buildPending "b2")),
       Event.After 5, Event.BuildInfo "b2" (Resp.ok (buildSucceeded "b2")),
       Event.ArtifactInfo "r/a@abcd" (Resp.ok artifactY)] ∧
    (∀ k r, Event.ArtifactInfo k r ∈
        (scenarioCreate.service.Build 5 optsAcme (World.start (0, 0) [])).2.log →
      k = "r/a" ++ "@" ++ "abcd") ∧
    (∀ k r, Event.BuildInfo k r ∈
        pollEvents (scenarioCreate.service.Build 5 optsAcme (World.start (0, 0) [])).2.log →
      k = "b2") :=
  ⟨rfl, rfl,
    (Build_keys scenarioCreate.service 5 optsAcme (0, 0) [] "abcd" rfl).2.1,
    ((Build_keys scenarioCreate.service 5 optsAcme (0, 0) [] "abcd" rfl).2.2.2
      "b2" ["log..."] none (by decide)).2⟩

/-- C7 on scenario 3 against the same scenario with a failing log stream. -/
theorem Build_stream_best_effort_witness :
    (scenarioCreate.service.LogsStream (0, 1) "b2").2.1 = none ∧
    (scenarioCreateStreamError.service.LogsStream (0, 1) "b2").2.1 = some errTransport ∧
    (scenarioCreateStreamError.service.Build 5 optsAcme (World.start (0, 0) [])).2.stderr =
      ["error streaming logs: connection reset\n"] ∧
    (scenarioCreate.service.Build 5 optsAcme (World.start (0, 0) [])).1 =
      (scenarioCreateStreamError.service.Build 5 optsAcme (World.start (0, 0) [])).1 ∧
    (scenarioCreate.service.Build 5 optsAcme (World.start (0, 0) [])).2.svc =
      (scenarioCreateStreamError.service.Build 5 optsAcme (World.start (0, 0) [])).2.svc ∧
    (scenarioCreate.service.Build 5 optsAcme (World.start (0, 0) [])).2.w =
      (scenarioCreateStreamError.service.Build 5 optsAcme (World.start (0, 0) [])).2.w ∧
    (scenarioCreate.service.Build 5 optsAcme (World.start (0, 0) [])).2.log.map
        Event.eraseStreamError =
      (scenarioCreateStreamError.service.Build 5 optsAcme (World.start (0, 0) [])).2.log.map
        Event.eraseStreamError :=
  ⟨rfl, rfl, rfl,
    Build_stream_best_effort scenarioCreate.service scenarioCreateStreamError.service 5
      optsAcme (0, 0) [] rfl rfl rfl (fun _ _ => ⟨rfl, rfl⟩)⟩

/-- C8 (amended) with `Sha` the empty string, on scenarios 3 and 1. -/
theorem Build_empty_sha_witness :
    optsEmptySha.Sha = some "" ∧
    (scenarioCreate.service.Build 5 optsEmptySha (World.start (0, 0) [])).2.log.head? =
      some (Event.ArtifactInfo ("r/a" ++ "@") (Resp.fail errNotFound)) ∧
    (scenarioCached.service.Build 5 optsEmptySha (World.start (0, 0) [])).1 =
      some (some artifactX, none) :=
  ⟨rfl, (Build_empty_sha scenarioCreate.service 5 optsEmptySha (0, 0) [] rfl).1,
    (Build_empty_sha scenarioCached.service 5 optsEmptySha (0, 0) [] rfl).2 artifactX rfl⟩

/-- C10 on four scenarios, one per failing call. -/
theorem Build_surfaces_errors_witness :
    ((scenarioArtifactError.service.Build 5 optsAcme (World.start (0, 0) [])).1 =
        some (none, some errTransport) ∧
      (scenarioArtifactError.service.Build 5 optsAcme (World.start (0, 0) [])).2.log =
        [Event.ArtifactInfo ("r/a" ++ "@" ++ "abcd") (Resp.fail errTransport)] ∧
      (scenarioArtifactError.service.Build 5 optsAcme (World.start (0, 0) [])).2.w = []) ∧
    ((scenarioLookupError.service.Build 5 optsAcme (World.start (0, 0) [])).1 =
        some (none, some errTransport) ∧
      (scenarioLookupError.service.Build 5 optsAcme (World.start (0, 0) [])).2.log =
        [Event.ArtifactInfo ("r/a" ++ "@" ++ "abcd") (Resp.fail errNotFound),
         Event.BuildInfo ("r/a" ++ "@" ++ "abcd") (Resp.fail errTransport)] ∧
      (scenarioLookupError.service.Build 5 optsAcme (World.start (0, 0) [])).2.w = []) ∧
    ((scenarioCreateError.service.Build 5 optsAcme (World.start (0, 0) [])).1 =
        some (none, some errNotFound) ∧
      (scenarioCreateError.service.Build 5 optsAcme (World.start (0, 0) [])).2.log =
        [Event.ArtifactInfo ("r/a" ++ "@" ++ "abcd") (Resp.fail errNotFound),
         Event.BuildInfo ("r/a" ++ "@" ++ "abcd") (Resp.fail errNotFound),
         Event.BuildCreate optsAcme (Resp.fail errNotFound)] ∧
      (scenarioCreateError.service.Build 5 optsAcme (World.start (0, 0) [])).2.w = []) ∧
    ((scenarioPollError.service.Build 5 optsAcme (World.start (0, 0) [])).1 =
        some (none, some errNotFound) ∧
      (scenarioPollError.service.Build 5 optsAcme (World.start (0, 0) [])).2.log.getLast? =
        some (Event.BuildInfo "b2" (Resp.fail errNotFound)) ∧
      ∀ k2 r, Event.ArtifactInfo k2 r ∉
        pollEvents (scenarioPollError.service.Build 5 optsAcme (World.start (0, 0) [])).2.log) :=
  ⟨(Build_surfaces_errors scenarioArtifactError.service 5 optsAcme (0, 0) [] "abcd" rfl).1
      errTransport rfl rfl,
    (Build_surfaces_errors scenarioLookupError.service 5 optsAcme (0, 0) [] "abcd" rfl).2.1
      errNotFound errTransport rfl rfl rfl rfl,
    (Build_surfaces_errors scenarioCreateError.service 5 optsAcme (0, 0) [] "abcd" rfl).2.2.1
      errNotFound errNotFound errNotFound rfl rfl rfl rfl rfl,
    (Build_surfaces_errors scenarioPollError.service 5 optsAcme (0, 0) [] "abcd" rfl).2.2.2
      "b2" errNotFound (by decide)⟩

/-! ## The remote queue: claim -/

theorem batchEntries_length : ∀ (ms : List Message) (i : Nat),
    (batchEntries i ms).length = ms.length := by
  intro ms
  induction ms with
  | nil => intro i; rfl
  | cons m rest ih => intro i; simp [batchEntries, ih]

theorem batchEntries_get : ∀ (ms : List Message) (i j : Nat) (m : Message),
    ms[j]? = some m →
      (batchEntries i ms)[j]? = some { Id := toString (i + j), ReceiptHandle := m.ReceiptHandle } := by
  intro ms
  induction ms with
  | nil => intro i j m h; simp at h
  | cons m0 rest ih =>
    intro i j m h
    cases j with
    | zero =>
      simp at h
      subst h
      simp [batchEntries]
    | succ k =>
      simp at h
      have := ih (i + 1) k m h
      simpa [batchEntries, Nat.add_assoc, Nat.add_comm 1 k] using this

theorem deliver_all {τ : Type} (q : SQSBuildQueue τ) :
    ∀ (ms : List Message) (options : List BuildOptions) (i : Nat)
      (entries : List DeleteMessageBatchRequestEntry) (st : QueueWorld τ),
      ms.map (fun m => q.decode m.Body) = options.map Resp.ok →
      q.deliver i ms entries st =
        (Resp.ok (entries ++ batchEntries i ms),
          { st with log := st.log ++ options.map (fun o =>
              QueueEvent.Deliver { Ctx := Context.background, BuildOptions := o }) }) := by
  intro ms
  induction ms with
  | nil =>
    intro options i entries st h
    cases options with
    | nil => simp [SQSBuildQueue.deliver, batchEntries]
    | cons o os => simp at h
  | cons m rest ih =>
    intro options i entries st h
    cases options with
    | nil => simp at h
    | cons o os =>
      simp at h
      obtain ⟨h1, h2⟩ := h
      have h2b : rest.map (fun m => q.decode m.Body) = os.map Resp.ok := by
        simpa using h2
      simp [SQSBuildQueue.deliver, h1, ih os (i + 1) _ _ h2b, batchEntries]

/-- C9: in an iteration of `Subscribe` whose receive returns the batch `ms`,
every body decoding (to `options`, in order): the iteration's events are the
receive, then one delivery per message in batch order, each a `BuildContext`
with the decoded options, then one `DeleteMessageBatch` for the configured
queue URL, then at most calls of the error handler; the delete has as many
entries as the batch, and entry `i` is the decimal string of `i` with the
receipt handle of message `i`; and the loop goes on. -/
theorem Subscribe_batch {τ : Type} (q : SQSBuildQueue τ) (fuel : Nat) (st : QueueWorld τ)
    (ms : List Message) (options : List BuildOptions)
    (hrecv : (q.sqs.ReceiveMessage st.remote q.QueueURL).1 = Received.messages ms)
    (hdec : ms.map (fun m => q.decode m.Body) = options.map Resp.ok) :
    ∃ entries handlerCalls,
      q.Subscribe (fuel + 1) st = q.Subscribe fuel (q.receiveMessage st).2 ∧
      (q.receiveMessage st).2.log =
        st.log ++ [QueueEvent.ReceiveMessage q.QueueURL] ++
          options.map (fun o =>
            QueueEvent.Deliver { Ctx := Context.background, BuildOptions := o }) ++
          [QueueEvent.DeleteMessageBatch { Entries := entries, QueueUrl := q.QueueURL }] ++
          handlerCalls ∧
      (∀ e ∈ handlerCalls, ∃ err, e = QueueEvent.Handle err) ∧
      options.length = ms.length ∧
      entries.length = ms.length ∧
      (∀ (i : Nat) (m : Message), ms[i]? = some m →
        entries[i]? = some (DeleteMessageBatchRequestEntry.mk (toString i) m.ReceiptHandle)) := by
  have hlen : options.length = ms.length := by
    have := congrArg List.length hdec
    simpa using this.symm
  have hd := deliver_all q ms options 0 []
    { remote := (q.sqs.ReceiveMessage st.remote q.QueueURL).2,
      log := st.log ++ [QueueEvent.ReceiveMessage q.QueueURL] } hdec
  have hget : ∀ (i : Nat) (m : Message), ms[i]? = some m →
      (batchEntries 0 ms)[i]? =
        some (DeleteMessageBatchRequestEntry.mk (toString i) m.ReceiptHandle) := by
    intro i m h
    simpa using batchEntries_get ms 0 i m h
  cases hdel : (q.sqs.DeleteMessageBatch (q.sqs.ReceiveMessage st.remote q.QueueURL).2
      { Entries := batchEntries 0 ms, QueueUrl := q.QueueURL }).1 with
  | none =>
    have hr : q.receiveMessage st = (true,
        { remote := (q.sqs.DeleteMessageBatch (q.sqs.ReceiveMessage st.remote q.QueueURL).2
            { Entries := batchEntries 0 ms, QueueUrl := q.QueueURL }).2,
          log := st.log ++ [QueueEvent.ReceiveMessage q.QueueURL] ++
            options.map (fun o =>
              QueueEvent.Deliver { Ctx := Context.background, BuildOptions := o }) ++
            [QueueEvent.DeleteMessageBatch
              { Entries := batchEntries 0 ms, QueueUrl := q.QueueURL }] }) := by
      simp [SQSBuildQueue.receiveMessage, hrecv, hd, hdel]
    refine ⟨batchEntries 0 ms, [], ?_, ?_, by simp, hlen, batchEntries_length ms 0, hget⟩
    · simp [SQSBuildQueue.Subscribe, hr]
    · simp [hr]
  | some err =>
    have hr : q.receiveMessage st = (true, q.handle err
        { remote := (q.sqs.DeleteMessageBatch (q.sqs.ReceiveMessage st.remote q.QueueURL).2
            { Entries := batchEntries 0 ms, QueueUrl := q.QueueURL }).2,
          log := st.log ++ [QueueEvent.ReceiveMessage q.QueueURL] ++
            options.map (fun o =>
              QueueEvent.Deliver { Ctx := Context.background, BuildOptions := o }) ++
            [QueueEvent.DeleteMessageBatch
              { Entries := batchEntries 0 ms, QueueUrl := q.QueueURL }] }) := by
      simp [SQSBuildQueue.receiveMessage, hrecv, hd, hdel]
    cases hh : q.hasErrHandler with
    | false =>
      refine ⟨batchEntries 0 ms, [], ?_, ?_, by simp, hlen, batchEntries_length ms 0, hget⟩
      · simp [SQSBuildQueue.Subscribe, hr]
      · simp [hr, SQSBuildQueue.handle, hh]
    | true =>
      refine ⟨batchEntries 0 ms, [QueueEvent.Handle err], ?_, ?_, by simp, hlen,
        batchEntries_length ms 0, hget⟩
      · simp [SQSBuildQueue.Subscribe, hr]
      · simp [hr, SQSBuildQueue.handle, hh]

/-- The scenario of `TestSQSBuildQueue_Subscribe_Panic` on the model: the
handler receives "panic: boom" and the loop ends after the first iteration,
whatever the fuel. -/
theorem Subscribe_panic_scenario (fuel : Nat) :
    (panicQueue.Subscribe (fuel + 1) { remote := 0, log := [] }).log =
      [QueueEvent.ReceiveMessage "",
       QueueEvent.Handle { Message := "panic: boom", NotFound := false }] := by
  rfl

/-- C9 on the scenario of `TestSQSBuildQueue_Subscribe`: both messages are
delivered in order, then one batch-delete with entries ("0", "a"), ("1", "b"). -/
theorem Subscribe_batch_witness :
    (testQueue.sqs.ReceiveMessage 0 testQueue.QueueURL).1 = Received.messages testMessages ∧
    testMessages.map (fun m => testQueue.decode m.Body) =
      [testOptions1, testOptions2].map Resp.ok ∧
    (testQueue.Subscribe 1 { remote := 0, log := [] }).log =
      [QueueEvent.ReceiveMessage "",
       QueueEvent.Deliver { Ctx := Context.background, BuildOptions := testOptions1 },
       QueueEvent.Deliver { Ctx := Context.background, BuildOptions := testOptions2 },
       QueueEvent.DeleteMessageBatch
         { Entries := [{ Id := "0", ReceiptHandle := "a" }, { Id := "1", ReceiptHandle := "b" }],
           QueueUrl := "" }] ∧
    ∃ entries handlerCalls,
      testQueue.Subscribe (0 + 1) { remote := 0, log := [] } =
        testQueue.Subscribe 0 (testQueue.receiveMessage { remote := 0, log := [] }).2 ∧
      (testQueue.receiveMessage { remote := 0, log := [] }).2.log =
        [] ++ [QueueEvent.ReceiveMessage testQueue.QueueURL] ++
          [testOptions1, testOptions2].map (fun o =>
            QueueEvent.Deliver { Ctx := Context.background, BuildOptions := o }) ++
          [QueueEvent.DeleteMessageBatch { Entries := entries, QueueUrl := testQueue.QueueURL }] ++
          handlerCalls ∧
      (∀ e ∈ handlerCalls, ∃ err, e = QueueEvent.Handle err) ∧
      [testOptions1, testOptions2].length = testMessages.length ∧
      entries.length = testMessages.length ∧
      (∀ (i : Nat) (m : Message), testMessages[i]? = some m →
        entries[i]? = some (DeleteMessageBatchRequestEntry.mk (toString i) m.ReceiptHandle)) :=
  ⟨rfl, by decide, by decide,
    Subscribe_batch testQueue 0 { remote := 0, log := [] } testMessages
      [testOptions1, testOptions2] rfl (by decide)⟩

end Proofs

end Conveyor

